import Mathlib

/-!
# Question-selection and paper-assembly engine: a shallow embedding

This file embeds the core logic of the exam-paper generator (client page
`src/pages/GenerateQuestions.tsx`, server route `server/routes/questions.js`,
and the two setup pages `CieExamSetup.tsx` / `SemesterExamSetup.tsx`) and
proves properties of the embedded functions.

Conventions of the embedding:
* JavaScript strings are Lean `String`s; the string operations used by the
  code (`toLowerCase`, `includes`, `startsWith`, `endsWith`, `parseInt`)
  are modelled on the underlying `List Char` (`String.data`).
* JavaScript numbers holding marks are `Int`; the bank's `topic_similarity`
  score (a float in [0,1]) is modelled as `Rat`.
* `Math.random()`-driven template choices take the drawn index as an
  explicit argument (`rand : Nat → Nat` indexed by a running draw counter),
  since each call is an independent draw.
* `Array.prototype.sort` with a comparator is stable per the ECMAScript
  specification; it is embedded as a stable insertion sort on the
  comparator's key.
-/

/-! ## JavaScript string primitives -/

/-- `p.isPrefixOf l` for char lists: model of the leading-match test used by
`String.prototype.startsWith` and by the substring scan. -/

def listIsPrefix : List Char → List Char → Bool
  | [], _ => true
  | _ :: _, [] => false
  | a :: as, b :: bs => a == b && listIsPrefix as bs

/-- `sub` occurs contiguously inside `l`: model of `String.prototype.includes`. -/

def listIncludes (sub : List Char) : List Char → Bool
  | [] => listIsPrefix sub []
  | c :: t => listIsPrefix sub (c :: t) || listIncludes sub t

/-- `s.startsWith(p)` -/

def jsStartsWith (s p : String) : Bool := listIsPrefix p.data s.data

/-- `s.endsWith(p)` -/

def jsEndsWith (s p : String) : Bool := p.data.isSuffixOf s.data

/-- `s.includes(sub)` -/

def jsIncludes (s sub : String) : Bool := listIncludes sub.data s.data

/-- `s.toLowerCase()` (ASCII, which is all the code compares). -/

def jsToLower (s : String) : String := ⟨s.data.map Char.toLower⟩

/-- Decimal value of a digit string. -/

def digitsToNat (l : List Char) : Nat := l.foldl (fun acc c => acc * 10 + (c.toNat - 48)) 0

/-- `parseInt(s)` on the identifiers this code passes it (no sign, no leading
whitespace, base 10): the longest digit prefix, `none` for `NaN`.  A `NaN`
result makes every `parseInt(x) === n` comparison false, which `none` mirrors. -/

def jsParseInt (s : String) : Option Nat :=
  let d := s.data.takeWhile Char.isDigit
  if d.isEmpty then none else some (digitsToNat d)

/-! ## Data model (interfaces of `GenerateQuestions.tsx`) -/

/-- One slot of the exam template (`interface QuestionConfig`).  `co` is
optional: the CIE setup page never sets it, the SEE setup page always does. -/

structure QuestionConfig where
  questionId : String
  level : String
  marks : Int
  includeC : Bool
  co : Option Int
  topic : String
deriving Repr, DecidableEq

/-- One entry of the processed question bank (`interface ProcessedQuestion`).
The Mongo `_id` field is called `oid` here. -/

structure ProcessedQuestion where
  question : String
  predicted_marks : Int
  bloom_level : String
  difficulty : String
  matched_topic : String
  matched_unit : String
  topic_similarity : Rat
  oid : String
deriving Repr, DecidableEq

/-- One assembled question (`interface GeneratedQuestion`). -/

structure GeneratedQuestion where
  questionId : String
  text : String
  marks : Int
  difficulty : String
  bloomLevel : String
  unit : String
  topic : String
  co : Option Int
  source : String
  originalId : Option String
  similarity : Option Rat
deriving Repr, DecidableEq

/-- The exam configuration handed to generation (`interface ExamConfig`). -/

structure ExamConfig where
  examType : String
  semester : String
  course : String
  courseId : String
deriving Repr, DecidableEq

/-- A slot is included when its id does not end in `'c'` or its `includeC`
flag is true: `!q.questionId.endsWith('c') || q.includeC`. -/

def includedB (q : QuestionConfig) : Bool :=
  !(jsEndsWith q.questionId "c") || q.includeC

/-! ## Stable descending sort on a rational key

`matchingQuestions.sort((a, b) => scoreB - scoreA)` is a stable sort placing
higher scores first; embedded as insertion sort on the key. -/

/-- Insert `a` after every element of strictly greater key and before the
first element of key `≤ key a` (so an element keeps its place ahead of later
equal-key elements). -/

def insertScored (key : α → Rat) (a : α) : List α → List α
  | [] => [a]
  | b :: l => if key b ≤ key a then a :: b :: l else b :: insertScored key a l

/-- Stable sort by descending `key`. -/

def stableSortByDesc (key : α → Rat) : List α → List α
  | [] => []
  | a :: l => insertScored key a (stableSortByDesc key l)

/-! ## Client matcher (`GenerateQuestions.tsx`, `findMatchingQuestions`) -/

/-- The filter of `findMatchingQuestions` (lines 224-240).  Note that the
source also computes a `unitMatch` flag there but does not use it in the
returned conjunction. -/

def clientFilterPred (config : QuestionConfig) (q : ProcessedQuestion) : Bool :=
  (jsToLower q.difficulty == jsToLower config.level)
  && decide ((q.predicted_marks - config.marks).natAbs ≤ 2)
  && (config.topic == "" || jsIncludes (jsToLower q.matched_topic) (jsToLower config.topic))

/-- The comparator key of the client sort (lines 241-258):
`topic_similarity * 100`, `+50` on an exact marks match, `+25` when
`matched_unit.includes(preferredUnit)` (case-sensitive). -/

def scoreQ (config : QuestionConfig) (preferredUnit : Option String)
    (q : ProcessedQuestion) : Rat :=
  q.topic_similarity * 100
    + (if q.predicted_marks == config.marks then 50 else 0)
    + (match preferredUnit with
       | some u => if jsIncludes q.matched_unit u then 25 else 0
       | none => 0)

/-- `findMatchingQuestions(config, preferredUnit)` over an explicit pool:
filter, then stable sort by descending score. -/

def findMatchingQuestions (pool : List ProcessedQuestion) (config : QuestionConfig)
    (preferredUnit : Option String) : List ProcessedQuestion :=
  stableSortByDesc (scoreQ config preferredUnit) (pool.filter (clientFilterPred config))

/-! ## Client fallback generator (`GenerateQuestions.tsx`, `generateAIQuestion`) -/

def easyTemplates (topic : String) : List String :=
  ["Define and explain the concept of " ++ topic ++ " with suitable examples.",
   "List the key features and characteristics of " ++ topic ++ ".",
   "What are the basic components of " ++ topic ++ "? Explain briefly.",
   "Draw a simple diagram to illustrate " ++ topic ++ "."]

def mediumTemplates (topic : String) : List String :=
  ["Explain the working principle of " ++ topic ++ " with detailed examples.",
   "Analyze the advantages and disadvantages of " ++ topic ++ ".",
   "Describe the implementation process of " ++ topic ++ " with algorithmic steps.",
   "Compare and contrast " ++ topic ++ " with other related concepts."]

def hardTemplates (topic : String) : List String :=
  ["Design and implement a comprehensive solution for " ++ topic ++ " addressing complex scenarios.",
   "Critically evaluate the performance implications of " ++ topic ++ " in real-world systems.",
   "Develop an optimized approach for " ++ topic ++ " and justify your design decisions.",
   "Create a novel algorithm incorporating " ++ topic ++ " to solve industry challenges."]

/-- `templates[config.level as keyof typeof templates] || templates.medium`:
any level other than the three exact lowercase keys falls back to the
medium tier. -/

def templatesFor (level topic : String) : List String :=
  if level == "easy" then easyTemplates topic
  else if level == "medium" then mediumTemplates topic
  else if level == "hard" then hardTemplates topic
  else mediumTemplates topic

/-- `generateAIQuestion(config, section?, co?)`.  The
`Math.floor(Math.random() * questionTemplates.length)` draw is passed in as
`r` and reduced modulo the template count. -/

def generateAIQuestion (config : QuestionConfig) (sec : Option Nat) (co : Option Int)
    (r : Nat) : GeneratedQuestion :=
  let questionTemplates := templatesFor config.level config.topic
  { questionId := config.questionId
    text := questionTemplates.getD (r % questionTemplates.length) ""
    marks := config.marks
    difficulty := config.level
    bloomLevel :=
      if config.level == "easy" then "L1"
      else if config.level == "medium" then "L3" else "L5"
    unit := match sec with
            | some s => "Unit " ++ Nat.repr s
            | none => "General"
    topic := config.topic
    co := co
    source := "ai_generated"
    originalId := none
    similarity := none }

/-! ## Client assembler (`GenerateQuestions.tsx`,
`generateQuestionsFromProcessedData`) -/

/-- The question pushed when a bank match is selected (lines 162-173 for CIE
with `co = none`; lines 198-210 for SEE with `co = some _`). -/

def fromBank (config : QuestionConfig) (co : Option Int) (sel : ProcessedQuestion) :
    GeneratedQuestion :=
  { questionId := config.questionId
    text := sel.question
    marks := config.marks
    difficulty := config.level
    bloomLevel := sel.bloom_level
    unit := sel.matched_unit
    topic := config.topic
    co := co
    source := "processed_data"
    originalId := some sel.oid
    similarity := some sel.topic_similarity }

/-- Per-slot loop body: best match from the bank, else AI fallback.  `k`
counts the `Math.random()` draws made so far; the pair returns the questions
and the updated counter. -/

def assembleSlots (pool : List ProcessedQuestion) (hint : Option String)
    (sec : Option Nat) (co : Option Int) (rand : Nat → Nat) :
    List QuestionConfig → Nat → List GeneratedQuestion × Nat
  | [], k => ([], k)
  | config :: rest, k =>
    match findMatchingQuestions pool config hint with
    | sel :: _ =>
      let pr := assembleSlots pool hint sec co rand rest k
      (fromBank config co sel :: pr.1, pr.2)
    | [] =>
      let pr := assembleSlots pool hint sec co rand rest (k + 1)
      (generateAIQuestion config sec co (rand k) :: pr.1, pr.2)

/-- One group of the outer iteration: the already-filtered slot list for a
section (CIE) or question number (SEE), with the matcher hint and the
`section`/`co` arguments the source passes along. -/

structure SlotGroup where
  cfgs : List QuestionConfig
  hint : Option String
  sec : Option Nat
  co : Option Int

/-- Sequential processing of the groups, threading the draw counter. -/

def assembleGroups (pool : List ProcessedQuestion) (rand : Nat → Nat) :
    List SlotGroup → Nat → List GeneratedQuestion
  | [], _ => []
  | g :: gs, k =>
    let pr := assembleSlots pool g.hint g.sec g.co rand g.cfgs k
    pr.1 ++ assembleGroups pool rand gs pr.2

/-- CIE outer loop (lines 145-179): `for section of [1,2,3]`, slots whose id
starts with the section digit and which are included, hint `Unit {section}`. -/

def cieGroups (questionConfigs : List QuestionConfig) : List SlotGroup :=
  [1, 2, 3].map fun s =>
    ⟨questionConfigs.filter fun q =>
        jsStartsWith q.questionId (Nat.repr s) && includedB q,
     some ("Unit " ++ Nat.repr s), some s, none⟩

/-- SEE question numbers with their course outcome:
`questionNum = (co-1)*2 + setIdx` for `co in [1..5]`, `setIdx in [1,2]`. -/

def seePairs : List (Nat × Int) :=
  [(1, 1), (2, 1), (3, 2), (4, 2), (5, 3), (6, 3), (7, 4), (8, 4), (9, 5), (10, 5)]

/-- SEE outer loop (lines 180-217): slots whose `parseInt` equals the
question number and which are included; no unit hint; `co` recorded. -/

def seeGroups (questionConfigs : List QuestionConfig) : List SlotGroup :=
  seePairs.map fun pr =>
    ⟨questionConfigs.filter fun q =>
        (jsParseInt q.questionId == some pr.1) && includedB q,
     none, none, some pr.2⟩

/-- `generateQuestionsFromProcessedData(examConfig, questionConfigs)` over an
explicit pool and random stream.  Only the exam type is read from the
configuration; every exam type other than `'CIE'` takes the `else` (SEE)
branch, as in the source. -/

def generateQuestionsFromProcessedData (examType : String)
    (questionConfigs : List QuestionConfig) (pool : List ProcessedQuestion)
    (rand : Nat → Nat) : List GeneratedQuestion :=
  assembleGroups pool rand
    (if examType == "CIE" then cieGroups questionConfigs else seeGroups questionConfigs) 0

/-! ## Server matcher filters (`server/routes/questions.js`,
`generateFromProcessedData`)

The server filters carry truthiness guards (`q.difficulty && ...`): an empty
string or a zero number is falsy and fails the conjunct. -/

/-- CIE filter (lines 81-99): `difficultyMatch && marksMatch && (unitMatch ||
topicMatch)` — unlike the client filter, a unit match can stand in for the
topic match. -/

def serverCieFilterPred (config : QuestionConfig) (sec : Nat)
    (q : ProcessedQuestion) : Bool :=
  let difficultyMatch := q.difficulty != "" &&
    (jsToLower q.difficulty == jsToLower config.level)
  let marksMatch := q.predicted_marks != 0 &&
    decide ((q.predicted_marks - config.marks).natAbs ≤ 2)
  let unitMatch := q.matched_unit != "" &&
    jsIncludes (jsToLower q.matched_unit) ("unit " ++ Nat.repr sec)
  let topicMatch := config.topic == "" ||
    (q.matched_topic != "" && jsIncludes (jsToLower q.matched_topic) (jsToLower config.topic))
  difficultyMatch && marksMatch && (unitMatch || topicMatch)

/-- CIE comparator key (lines 102-118): similarity (guarded by truthiness),
`+50` exact marks, `+25` when `matched_unit.includes(`Unit ${section}`)`. -/

def serverCieScore (config : QuestionConfig) (sec : Nat)
    (q : ProcessedQuestion) : Rat :=
  (if q.topic_similarity == 0 then 0 else q.topic_similarity * 100)
    + (if q.predicted_marks == config.marks then 50 else 0)
    + (if q.matched_unit != "" && jsIncludes q.matched_unit ("Unit " ++ Nat.repr sec)
       then 25 else 0)

/-- The server CIE matcher: filter then stable sort by `serverCieScore`. -/

def serverCieMatch (pool : List ProcessedQuestion) (config : QuestionConfig)
    (sec : Nat) : List ProcessedQuestion :=
  stableSortByDesc (serverCieScore config sec) (pool.filter (serverCieFilterPred config sec))

/-- SEE filter (lines 157-166): tolerance 3, topic only, no unit clause. -/

def serverSeeFilterPred (config : QuestionConfig) (q : ProcessedQuestion) : Bool :=
  let difficultyMatch := q.difficulty != "" &&
    (jsToLower q.difficulty == jsToLower config.level)
  let marksMatch := q.predicted_marks != 0 &&
    decide ((q.predicted_marks - config.marks).natAbs ≤ 3)
  let topicMatch := config.topic == "" ||
    (q.matched_topic != "" && jsIncludes (jsToLower q.matched_topic) (jsToLower config.topic))
  difficultyMatch && marksMatch && topicMatch

/-! ## Server fallback generator (`generateAIQuestionForConfig`, lines 242-286) -/

/-- The rotating default topic list used when the slot has no topic. -/

def serverTopics : List String :=
  ["process management", "memory management", "file systems", "I/O systems",
   "CPU scheduling", "deadlock handling", "virtual memory", "disk scheduling",
   "operating system security", "distributed systems", "system calls", "threading"]

def serverEasyTemplates (topic : String) : List String :=
  ["Define and explain " ++ topic ++ " with suitable examples.",
   "List the key characteristics and features of " ++ topic ++ ".",
   "What are the basic components of " ++ topic ++ "? Explain briefly.",
   "Draw a simple diagram to illustrate " ++ topic ++ "."]

def serverMediumTemplates (topic : String) : List String :=
  ["Explain the working principle of " ++ topic ++ " with detailed examples and applications.",
   "Analyze the advantages and disadvantages of " ++ topic ++ " in operating systems.",
   "Describe the implementation process of " ++ topic ++ " with algorithmic steps.",
   "Compare and contrast different approaches to " ++ topic ++ "."]

def serverHardTemplates (topic : String) : List String :=
  ["Design and implement a comprehensive solution for " ++ topic ++ " addressing complex scenarios.",
   "Critically evaluate the performance implications of " ++ topic ++ " in modern operating systems.",
   "Develop an optimized algorithm for " ++ topic ++ " and justify your design decisions.",
   "Create a novel approach for " ++ topic ++ " to solve real-world system challenges."]

/-- `questionTemplates[config.level] || questionTemplates["medium"]`. -/

def serverTemplatesFor (level topic : String) : List String :=
  if level == "easy" then serverEasyTemplates topic
  else if level == "medium" then serverMediumTemplates topic
  else if level == "hard" then serverHardTemplates topic
  else serverMediumTemplates topic

/-- `const topic = config.topic || topics[Math.floor(Math.random() * topics.length)]`. -/

def serverChosenTopic (config : QuestionConfig) (rTopic : Nat) : String :=
  if config.topic == "" then serverTopics.getD (rTopic % serverTopics.length) ""
  else config.topic

/-- `generateAIQuestionForConfig(config, section, co)`; the two random draws
(default topic, template index) are explicit. -/

def generateAIQuestionForConfig (config : QuestionConfig) (sec : Option Nat)
    (co : Option Int) (rTopic rTmpl : Nat) : GeneratedQuestion :=
  let topic := serverChosenTopic config rTopic
  let templates := serverTemplatesFor config.level topic
  { questionId := config.questionId
    text := templates.getD (rTmpl % templates.length) ""
    marks := config.marks
    difficulty := config.level
    bloomLevel :=
      if config.level == "easy" then "L1"
      else if config.level == "medium" then "L3" else "L5"
    unit := match sec with
            | some s => "Unit " ++ Nat.repr s
            | none => "General"
    topic := topic
    co := co
    source := "ai_generated"
    originalId := none
    similarity := none }

/-! ## Setup-page validation (`CieExamSetup.tsx` / `SemesterExamSetup.tsx`,
`handleSubmit`) -/

/-- The marks reduce both pages use: skip a `'c'`-suffixed slot whose
`includeC` flag is off, otherwise add its marks. -/

def markSum (l : List QuestionConfig) : Int :=
  l.foldl (fun sum q =>
    if jsEndsWith q.questionId "c" && !q.includeC then sum else sum + q.marks) 0

/-- CIE: marks of the (possibly excluded) slots whose id starts with the
section digit, counting only included ones. -/

def cieSectionTotal (questionConfigs : List QuestionConfig) (s : String) : Int :=
  markSum (questionConfigs.filter fun q => jsStartsWith q.questionId s)

/-- CIE marks loop (`CieExamSetup.tsx` lines 215-236): first section of
`["1","2","3"]` whose included total is not 15, with that total. -/

def validateCieMarks (questionConfigs : List QuestionConfig) : Option (String × Int) :=
  (["1", "2", "3"].map fun s => (s, cieSectionTotal questionConfigs s)).find?
    fun pr => !(pr.2 == 15)

/-- SEE: marks of the slots with the given `co` field and question number
(`q.co === co && parseInt(q.questionId) === qnum`), counting included ones. -/

def seeSetTotal (questionConfigs : List QuestionConfig) (co : Int) (qnum : Nat) : Int :=
  markSum (questionConfigs.filter fun q =>
    (q.co == some co) && (jsParseInt q.questionId == some qnum))

/-- SEE marks loop (`SemesterExamSetup` handleSubmit, part_003 lines
727-757): for each CO and each of its two question numbers, the included
total must be 20; first failure reported as (questionNum, co, actual). -/

def validateSeeMarks (questionConfigs : List QuestionConfig) : Option (Nat × Int × Int) :=
  (seePairs.map fun pr => (pr.1, pr.2, seeSetTotal questionConfigs pr.2 pr.1)).find?
    fun t => !(t.2.2 == 20)

/-- Topic check both pages share (CIE lines 238-249, SEE lines 759-770):
`activeQuestions.some(q => !q.topic)` over the included slots; on failure a
fixed toast title/description pair that does not mention any slot. -/

def validateTopics (questionConfigs : List QuestionConfig) : Option (String × String) :=
  if (questionConfigs.filter includedB).any (fun q => q.topic == "")
  then some ("Missing topic selection", "Please select a topic for each active question")
  else none

/-- Outcome of a setup page's `handleSubmit`: a blocking toast or navigation
to generation. -/

inductive SubmitResult where
  | blocked (title desc : String)
  | proceed
deriving Repr, DecidableEq

namespace CieExamSetup

/-- `handleSubmit` of `CieExamSetup.tsx`: marks check (early return with the
section and actual total in the message), then topic check, then navigate. -/

def handleSubmit (questionConfigs : List QuestionConfig) : SubmitResult :=
  match validateCieMarks questionConfigs with
  | some (s, t) =>
    .blocked "Invalid marks distribution"
      ("Section " ++ s ++ " must have a total of 15 marks. Current total: " ++ toString t)
  | none =>
    match validateTopics questionConfigs with
    | some (title, desc) => .blocked title desc
    | none => .proceed

/-- `initializeQuestionConfigs` (lines 160-177): slots 1a..3c, part `c`
hard and excluded by default, 5 marks each, empty topic. -/

def initializeQuestionConfigs : List QuestionConfig :=
  [1, 2, 3].flatMap fun s =>
    ["a", "b", "c"].map fun part =>
      { questionId := Nat.repr s ++ part
        level := if part == "c" then "hard" else "medium"
        marks := 5
        includeC := part != "c"
        co := none
        topic := "" }

end CieExamSetup

namespace SemesterExamSetup

/-- `handleSubmit` of `SemesterExamSetup` (part_003 lines 725-784). -/

def handleSubmit (questionConfigs : List QuestionConfig) : SubmitResult :=
  match validateSeeMarks questionConfigs with
  | some (qnum, co, t) =>
    .blocked "Invalid marks distribution"
      ("Question " ++ toString qnum ++ " (CO" ++ toString co ++
       ") must have a total of 20 marks. Current total: " ++ toString t)
  | none =>
    match validateTopics questionConfigs with
    | some (title, desc) => .blocked title desc
    | none => .proceed

/-- `initializeQuestionConfigs` (part_003 lines 670-687): slots 1a..10c,
`co = Math.ceil(questionNum / 2)`, marks 5/7/8, part `c` excluded by default. -/

def initializeQuestionConfigs : List QuestionConfig :=
  [1, 2, 3, 4, 5, 6, 7, 8, 9, 10].flatMap fun qn =>
    ["a", "b", "c"].map fun part =>
      { questionId := Nat.repr qn ++ part
        level := if part == "c" then "hard" else "medium"
        marks := if part == "a" then 5 else if part == "b" then 7 else 8
        includeC := part != "c"
        co := some (((qn : Int) + 1) / 2)
        topic := "" }

end SemesterExamSetup

/-! ## Layout renderer (`GenerateQuestions.tsx`, `formatQuestionPaper`,
lines 351-454)

`const currentDate = new Date().toLocaleDateString()` reads the ambient
clock and locale; the embedding takes that reading as the explicit
`currentDate` argument. -/

/-- The `courseMap` record lookup with fallback to the raw course code. -/

def courseMap (course : String) : String :=
  if course == "OS" then "Operating Systems"
  else if course == "ML" then "Machine Learning"
  else if course == "ACN" then "Advanced Computer Networks"
  else if course == "DCN" then "Data Communication Networks"
  else if course == "DL" then "Deep Learning"
  else if course == "DS" then "Data Structures"
  else if course == "DBMS" then "Database Management Systems"
  else if course == "AI" then "Artificial Intelligence"
  else course

/-- `(similarity * 100).toFixed(1)`: one decimal digit.  JavaScript rounds
the binary double to the nearest decimal; on the exact rationals of this
model that is decimal round-half-up. -/

def toFixed1 (x : Rat) : String :=
  let n : Int := (x * 10 + 1 / 2).floor
  toString (n / 10) ++ "." ++ toString (n % 10)

/-- The banner line: 79 box-drawing double-horizontal characters and a
newline (the literal of source lines 369/371/449/451). -/

def bannerLine : String := String.mk (List.replicate 79 '═') ++ "\n"

/-- The thin rule: 79 box-drawing light-horizontal characters and a newline
(the literal of source lines 389/397/421). -/

def thinLine : String := String.mk (List.replicate 79 '─') ++ "\n"

/-- The two metadata lines under one question (lines 405-410 and 434-439
share this shape; the leading label character differs per format and is
passed in as `label`). -/

def questionLines (label : String) (q : GeneratedQuestion) : String :=
  label ++ ". " ++ q.text ++ "\n"
    ++ "    [" ++ toString q.marks ++ " Marks | " ++ q.difficulty ++ " | "
    ++ q.bloomLevel ++ "]\n"
    ++ (if q.source == "processed_data" then
          "    [Source: Question Bank | Similarity: "
            ++ toFixed1 (q.similarity.getD 0 * 100) ++ "%]\n"
        else "")
    ++ "\n"

/-- `question.questionId[1].toUpperCase()` (CIE body). -/

def secondCharUpper (s : String) : String :=
  String.mk [(s.data.getD 1 ' ').toUpper]

/-- `question.questionId.slice(-1).toUpperCase()` (SEE body). -/

def lastCharUpper (s : String) : String :=
  String.mk [(s.data.getLastD ' ').toUpper]

/-- CIE body (lines 391-414). -/

def cieBody (questions : List GeneratedQuestion) : String :=
  String.join <| [1, 2, 3].map fun s =>
    "SECTION " ++ Nat.repr s ++ "\n" ++ thinLine ++ "\n"
      ++ String.join ((questions.filter fun q =>
            jsStartsWith q.questionId (Nat.repr s)).map fun q =>
          questionLines (Nat.repr s ++ secondCharUpper q.questionId) q)
      ++ "\n"

/-- SEE body (lines 415-447). -/

def seeBody (questions : List GeneratedQuestion) : String :=
  String.join <| [1, 2, 3, 4, 5].map fun co =>
    "MODULE " ++ Nat.repr co ++ " (Course Outcome " ++ Nat.repr co ++ ")\n"
      ++ thinLine ++ "\n"
      ++ String.join ([(co - 1) * 2 + 1, (co - 1) * 2 + 2].map fun qnum =>
          "Question " ++ Nat.repr qnum ++ ":\n"
            ++ String.join ((questions.filter fun q =>
                  jsParseInt q.questionId == some qnum).map fun q =>
                questionLines (Nat.repr qnum ++ lastCharUpper q.questionId) q)
            ++ "OR\n\n")
      ++ "\n"

/-- Everything before the `Date:` line (lines 369-373). -/

def headerBeforeDate (examConfig : ExamConfig) : String :=
  bannerLine
    ++ "                    "
    ++ (if examConfig.examType == "CIE" then "CONTINUOUS INTERNAL EVALUATION"
        else "SEMESTER END EXAMINATION") ++ "\n"
    ++ bannerLine ++ "\n"
    ++ "Course: " ++ courseMap examConfig.course ++ " (" ++ examConfig.course ++ ")\n"
    ++ "Semester: " ++ examConfig.semester ++ "\n"

/-- Everything after the `Date:` line (lines 375-451). -/

def afterDate (examConfig : ExamConfig) (questions : List GeneratedQuestion) : String :=
  "Duration: "
    ++ (if examConfig.examType == "CIE" then "1 Hour 30 Minutes" else "3 Hours") ++ "\n"
    ++ "Maximum Marks: " ++ (if examConfig.examType == "CIE" then "45" else "100") ++ "\n\n"
    ++ "Instructions:\n"
    ++ (if examConfig.examType == "CIE" then
          "• Answer all questions from all sections\n"
            ++ "• Each section carries 15 marks\n"
            ++ "• All parts of a question should be answered contiguously\n\n"
        else
          "• Answer any one full question from each module\n"
            ++ "• Each module carries 20 marks\n"
            ++ "• All parts of a question should be answered contiguously\n\n")
    ++ thinLine ++ "\n"
    ++ (if examConfig.examType == "CIE" then cieBody questions else seeBody questions)
    ++ bannerLine
    ++ "                                   END OF QUESTION PAPER\n"
    ++ bannerLine

/-- `formatQuestionPaper(examConfig, questions)` with the ambient
`toLocaleDateString()` reading passed as `currentDate`.  The string is the
source's sequence of `questionPaper +=` appends, grouped around the
`Date:` line. -/

def formatQuestionPaper (examConfig : ExamConfig) (questions : List GeneratedQuestion)
    (currentDate : String) : String :=
  headerBeforeDate examConfig ++ "Date: " ++ currentDate ++ "\n"
    ++ afterDate examConfig questions

/-- Every slot id lies in the CIE template: it starts with one of the three
section digits (the shape `initializeQuestionConfigs` creates, preserved by
every slot-editing handler, which only rewrites other fields). -/

def cieShape (cfgs : List QuestionConfig) : Prop :=
  ∀ q ∈ cfgs, jsStartsWith q.questionId "1" = true ∨
    jsStartsWith q.questionId "2" = true ∨ jsStartsWith q.questionId "3" = true

/-- Every slot id lies in the SEE template: its numeric prefix parses to a
question number in 1..10. -/

def seeShape (cfgs : List QuestionConfig) : Prop :=
  ∀ q ∈ cfgs, ∃ n, jsParseInt q.questionId = some n ∧ 1 ≤ n ∧ n ≤ 10

/-- Executable form of `seeShape`. -/

def seeShapeB (cfgs : List QuestionConfig) : Bool :=
  cfgs.all fun q =>
    match jsParseInt q.questionId with
    | some n => decide (1 ≤ n ∧ n ≤ 10)
    | none => false

/-- Marks of the included slots whose id starts with the section string:
what the claim calls the section's included-slot total. -/

def cieIncludedSum (cfgs : List QuestionConfig) (s : String) : Int :=
  ((cfgs.filter fun q => jsStartsWith q.questionId s && includedB q).map
    (fun q => q.marks)).sum

/-- Marks of the included slots sharing the question number `n`: what the
claim calls the question number's included-slot total. -/

def seeIncludedSum (cfgs : List QuestionConfig) (n : Nat) : Int :=
  ((cfgs.filter fun q => (jsParseInt q.questionId == some n) && includedB q).map
    (fun q => q.marks)).sum

/-- The `co` field of every slot is the one its question number derives
(`co = Math.ceil(questionNum / 2)`): the invariant `initializeQuestionConfigs`
establishes and every slot-editing handler preserves (none touches
`questionId` or `co`). -/

def coConsistent (cfgs : List QuestionConfig) : Prop :=
  ∀ q ∈ cfgs, ∀ n : Nat, jsParseInt q.questionId = some n →
    q.co = some (((n : Int) + 1) / 2)

/-- Executable form of `coConsistent`. -/

def coConsistentB (cfgs : List QuestionConfig) : Bool :=
  cfgs.all fun q =>
    match jsParseInt q.questionId with
    | some n => q.co == some (((n : Int) + 1) / 2)
    | none => true

/-- A CIE slot list with all nine parts included and 5 marks each (each
section sums to 15), used as a witness input. -/

def cieValidCfgs : List QuestionConfig :=
  [1, 2, 3].flatMap fun s =>
    ["a", "b", "c"].map fun p =>
      { questionId := Nat.repr s ++ p, level := "medium", marks := 5,
        includeC := true, co := none, topic := "Process Management" }

/-! ## C7: unknown exam types -/

/-- A single included slot used for concrete inputs. -/

def slotW : QuestionConfig :=
  { questionId := "1a", level := "medium", marks := 20, includeC := true,
    co := some 1, topic := "Process Management" }

/-! ## C8: the missing-topic failure -/

/-- `cieValidCfgs` with the topic of slot 1a cleared. -/

def cfgsMissingA : List QuestionConfig :=
  cieValidCfgs.map fun q => if q.questionId == "1a" then { q with topic := "" } else q

/-- `cieValidCfgs` with the topic of slot 2b cleared. -/

def cfgsMissingB : List QuestionConfig :=
  cieValidCfgs.map fun q => if q.questionId == "2b" then { q with topic := "" } else q

/-! ## C3: the matcher inclusion condition -/

/-- The inclusion condition exactly as claim C3 states it: case-insensitive
difficulty equality; marks within the tolerance; topic filter empty or
contained case-insensitively in the matched topic; and, when a structural
unit hint is supplied, at least one of unit-containment or
topic-containment. -/

def claimC3Pred (tol : Nat) (hint : Option String) (config : QuestionConfig)
    (q : ProcessedQuestion) : Prop :=
  jsToLower q.difficulty = jsToLower config.level
  ∧ (q.predicted_marks - config.marks).natAbs ≤ tol
  ∧ (config.topic = ""
      ∨ jsIncludes (jsToLower q.matched_topic) (jsToLower config.topic) = true)
  ∧ (match hint with
     | some u => jsIncludes (jsToLower q.matched_unit) (jsToLower u) = true
        ∨ (config.topic = ""
            ∨ jsIncludes (jsToLower q.matched_topic) (jsToLower config.topic) = true)
     | none => True)

/-- A bank entry matching the unit but not the topic of the slot below. -/

def qUnitOnly : ProcessedQuestion :=
  { question := "Describe paging.", predicted_marks := 5, bloom_level := "L2",
    difficulty := "Medium", matched_topic := "Virtual Memory",
    matched_unit := "Unit 1", topic_similarity := 1/2, oid := "q1" }

/-- A slot filtering on the topic "Deadlocks". -/

def cfgDeadlocks : QuestionConfig :=
  { questionId := "1a", level := "medium", marks := 5, includeC := true,
    co := none, topic := "Deadlocks" }

/-- A slot and two passing bank entries: `qHighScore` has the higher score
(exact marks + unit bonus + higher similarity) and must rank first even
though it sits later in the pool. -/

def cfgMem : QuestionConfig :=
  { questionId := "1a", level := "medium", marks := 5, includeC := true,
    co := none, topic := "memory" }

def qLowScore : ProcessedQuestion :=
  { question := "Explain segmentation.", predicted_marks := 6, bloom_level := "L2",
    difficulty := "Medium", matched_topic := "memory management",
    matched_unit := "", topic_similarity := 1/2, oid := "a" }

def qHighScore : ProcessedQuestion :=
  { question := "Explain paging.", predicted_marks := 5, bloom_level := "L2",
    difficulty := "Medium", matched_topic := "virtual memory basics",
    matched_unit := "Unit 1", topic_similarity := 9/10, oid := "b" }

/-! ## C5: determinism of assembly -/

/-- An easy slot whose fallback text depends on the template draw. -/

def cfgOS : QuestionConfig :=
  { questionId := "1a", level := "easy", marks := 5, includeC := true,
    co := none, topic := "OS" }

/-- The relation preserved between two assembly runs with different random
streams: sources agree positionally, and bank-sourced entries agree fully. -/

def StreamIndep (a b : GeneratedQuestion) : Prop :=
  a.source = b.source ∧ (a.source = "processed_data" → a = b)

namespace CieExamSetup

/-- `handleLevelChange` (lines 179-185). -/

def handleLevelChange (questionId level : String) (cfgs : List QuestionConfig) :
    List QuestionConfig :=
  cfgs.map fun c => if c.questionId == questionId then { c with level := level } else c

/-- `handleMarksChange` (lines 187-193). -/

def handleMarksChange (questionId : String) (marks : Int) (cfgs : List QuestionConfig) :
    List QuestionConfig :=
  cfgs.map fun c => if c.questionId == questionId then { c with marks := marks } else c

/-- `handleIncludeCChange` (lines 195-203): guarded on a `'c'`-suffixed id. -/

def handleIncludeCChange (questionId : String) (includeC : Bool)
    (cfgs : List QuestionConfig) : List QuestionConfig :=
  if jsEndsWith questionId "c" then
    cfgs.map fun c => if c.questionId == questionId then { c with includeC := includeC } else c
  else cfgs

/-- `handleTopicChange` (lines 205-211). -/

def handleTopicChange (questionId topic : String) (cfgs : List QuestionConfig) :
    List QuestionConfig :=
  cfgs.map fun c => if c.questionId == questionId then { c with topic := topic } else c

end CieExamSetup

namespace SemesterExamSetup

/-- `handleLevelChange` (part_003). -/

def handleLevelChange (questionId level : String) (cfgs : List QuestionConfig) :
    List QuestionConfig :=
  cfgs.map fun c => if c.questionId == questionId then { c with level := level } else c

/-- `handleMarksChange` (part_003). -/

def handleMarksChange (questionId : String) (marks : Int) (cfgs : List QuestionConfig) :
    List QuestionConfig :=
  cfgs.map fun c => if c.questionId == questionId then { c with marks := marks } else c

/-- `handleIncludeCChange` (part_003 lines 707-715). -/

def handleIncludeCChange (questionId : String) (includeC : Bool)
    (cfgs : List QuestionConfig) : List QuestionConfig :=
  if jsEndsWith questionId "c" then
    cfgs.map fun c => if c.questionId == questionId then { c with includeC := includeC } else c
  else cfgs

/-- `handleTopicChange` (part_003 lines 717-723). -/

def handleTopicChange (questionId topic : String) (cfgs : List QuestionConfig) :
    List QuestionConfig :=
  cfgs.map fun c => if c.questionId == questionId then { c with topic := topic } else c

end SemesterExamSetup

example : jsStartsWith "1a" "1" = true := by decide

example : jsIncludes "Process Management and Scheduling" "Process Management" = true := by decide

example : jsIncludes "unit 2 paging" "unit 1" = false := by decide

example : jsParseInt "10c" = some 10 := by decide

example : jsParseInt "abc" = none := by decide

example : jsToLower "Medium" = "medium" := by decide

example : includedB ⟨"1c", "hard", 5, false, none, ""⟩ = false := by decide

theorem mem_insertScored {key : α → Rat} {a x : α} {l : List α} :
    x ∈ insertScored key a l ↔ x = a ∨ x ∈ l := by
  induction l with
  | nil => simp [insertScored]
  | cons b t ih =>
    by_cases h : key b ≤ key a
    · simp [insertScored, h]
    · simp only [insertScored, if_neg h, List.mem_cons, ih]
      tauto

theorem pairwise_insertScored {key : α → Rat} {a : α} {l : List α}
    (h : l.Pairwise (fun x y => key y ≤ key x)) :
    (insertScored key a l).Pairwise (fun x y => key y ≤ key x) := by
  induction l with
  | nil => simp [insertScored]
  | cons b t ih =>
    rcases List.pairwise_cons.1 h with ⟨hb, ht⟩
    by_cases hba : key b ≤ key a
    · rw [insertScored, if_pos hba]
      refine List.pairwise_cons.2 ⟨?_, h⟩
      intro z hz
      rcases List.mem_cons.1 hz with rfl | hz
      · exact hba
      · exact le_trans (hb z hz) hba
    · rw [insertScored, if_neg hba]
      refine List.pairwise_cons.2 ⟨?_, ih ht⟩
      intro z hz
      rcases mem_insertScored.1 hz with rfl | hz
      · exact le_of_lt (lt_of_not_le hba)
      · exact hb z hz

theorem pairwise_stableSortByDesc (key : α → Rat) (l : List α) :
    (stableSortByDesc key l).Pairwise (fun x y => key y ≤ key x) := by
  induction l with
  | nil => exact List.Pairwise.nil
  | cons a t ih => exact pairwise_insertScored ih

theorem filter_insertScored (key : α → Rat) (s : Rat) (a : α) (l : List α) :
    (insertScored key a l).filter (fun x => key x == s) =
      if key a == s then a :: l.filter (fun x => key x == s)
      else l.filter (fun x => key x == s) := by
  induction l with
  | nil =>
    cases has : key a == s <;> simp [insertScored, List.filter, has]
  | cons b t ih =>
    by_cases hba : key b ≤ key a
    · cases has : key a == s <;> simp [insertScored, hba, has, List.filter]
    · have hab : key a < key b := lt_of_not_le hba
      rw [insertScored, if_neg hba]
      cases has : key a == s
      · rw [if_neg (by simp [has])]
        rw [List.filter, List.filter]
        rw [ih, if_neg (by simp [has])]
      · have hbs : (key b == s) = false := by
          have hs : key a = s := eq_of_beq has
          simp only [beq_eq_false_iff_ne, ne_eq]
          intro hb; rw [hb, ← hs] at hab; exact lt_irrefl _ hab
        rw [if_pos (by simp [has])]
        rw [List.filter, List.filter, hbs]
        rw [ih, if_pos (by simp [has])]

/-- Stability: for every key value, the sorted list restricts to the same
subsequence the input does (ties keep input order). -/

theorem filter_stableSortByDesc (key : α → Rat) (s : Rat) (l : List α) :
    (stableSortByDesc key l).filter (fun x => key x == s) =
      l.filter (fun x => key x == s) := by
  induction l with
  | nil => rfl
  | cons a t ih =>
    by_cases has : key a == s <;>
      simp [stableSortByDesc, filter_insertScored, has, List.filter, ih]

example :
    validateCieMarks CieExamSetup.initializeQuestionConfigs = some ("1", 10) := by decide

example :
    validateSeeMarks SemesterExamSetup.initializeQuestionConfigs = some (1, 1, 12) := by
  decide

example :
    CieExamSetup.handleSubmit CieExamSetup.initializeQuestionConfigs =
      .blocked "Invalid marks distribution"
        "Section 1 must have a total of 15 marks. Current total: 10" := by
  decide

/-! ## Helper lemmas: assembler lengths and template shapes -/

theorem assembleSlots_length (pool : List ProcessedQuestion) (hint : Option String)
    (sec : Option Nat) (co : Option Int) (rand : Nat → Nat) :
    ∀ (cfgs : List QuestionConfig) (k : Nat),
      (assembleSlots pool hint sec co rand cfgs k).1.length = cfgs.length := by
  intro cfgs
  induction cfgs with
  | nil => intro k; rfl
  | cons c rest ih =>
    intro k
    rw [assembleSlots]
    cases findMatchingQuestions pool c hint with
    | nil => simpa using ih (k + 1)
    | cons sel tl => simpa using ih k

theorem assembleGroups_length (pool : List ProcessedQuestion) (rand : Nat → Nat) :
    ∀ (gs : List SlotGroup) (k : Nat),
      (assembleGroups pool rand gs k).length = (gs.map fun g => g.cfgs.length).sum := by
  intro gs
  induction gs with
  | nil => intro k; rfl
  | cons g rest ih =>
    intro k
    rw [assembleGroups]
    simp [List.length_append, assembleSlots_length, ih]

/-- Single-character prefixes are mutually exclusive. -/

theorem listIsPrefix_singleton (c : Char) (l : List Char) :
    listIsPrefix [c] l = true ↔ l.head? = some c := by
  cases l with
  | nil => simp [listIsPrefix]
  | cons b t =>
    simp only [listIsPrefix, Bool.and_true, List.head?_cons, Option.some.injEq]
    exact ⟨fun h => (eq_of_beq h).symm, fun h => by simp [h]⟩

theorem jsStartsWith_digit_exclusive (x : String) {p q : String} {c d : Char}
    (hp : p.data = [c]) (hq : q.data = [d]) (hcd : c ≠ d)
    (h : jsStartsWith x p = true) : jsStartsWith x q = false := by
  unfold jsStartsWith at *
  rw [hp, listIsPrefix_singleton] at h
  rw [hq, Bool.eq_false_iff]
  intro hd
  rw [listIsPrefix_singleton, h] at hd
  exact hcd (Option.some.inj hd)

theorem seeShape_of_seeShapeB {cfgs : List QuestionConfig}
    (h : seeShapeB cfgs = true) : seeShape cfgs := by
  intro q hq
  have := (List.all_eq_true.1 h) q hq
  revert this
  cases hp : jsParseInt q.questionId with
  | none => simp
  | some n => exact fun hb => ⟨n, rfl, of_decide_eq_true hb⟩

theorem sum_map_add {κ : Type _} (l : List κ) (f g : κ → Nat) :
    (l.map fun k => f k + g k).sum = (l.map f).sum + (l.map g).sum := by
  induction l with
  | nil => rfl
  | cons a t ih => simp [ih]; omega

theorem filter_cons_length {α : Type _} (p : α → Bool) (a : α) (l : List α) :
    ((a :: l).filter p).length = (if p a then 1 else 0) + (l.filter p).length := by
  by_cases h : p a
  · simp [List.filter_cons, h]; omega
  · simp [List.filter_cons, h]

/-- Under the CIE shape, the three per-section slot groups together count
every included slot exactly once. -/

theorem cieGroups_length_sum (cfgs : List QuestionConfig) (h : cieShape cfgs) :
    ((cieGroups cfgs).map fun g => g.cfgs.length).sum = (cfgs.filter includedB).length := by
  induction cfgs with
  | nil => rfl
  | cons a rest ih =>
    have hrest : cieShape rest := fun q hq => h q (List.mem_cons_of_mem a hq)
    have ha := h a (List.mem_cons_self a rest)
    have ihr := ih hrest
    simp only [cieGroups, List.map_cons, List.map_nil, List.sum_cons, List.sum_nil] at ihr ⊢
    rw [show Nat.repr 1 = "1" from rfl, show Nat.repr 2 = "2" from rfl,
      show Nat.repr 3 = "3" from rfl] at ihr ⊢
    rw [filter_cons_length, filter_cons_length, filter_cons_length, filter_cons_length]
    have e12 := jsStartsWith_digit_exclusive a.questionId (p := "1") (q := "2")
      rfl rfl (by decide)
    have e13 := jsStartsWith_digit_exclusive a.questionId (p := "1") (q := "3")
      rfl rfl (by decide)
    have e21 := jsStartsWith_digit_exclusive a.questionId (p := "2") (q := "1")
      rfl rfl (by decide)
    have e23 := jsStartsWith_digit_exclusive a.questionId (p := "2") (q := "3")
      rfl rfl (by decide)
    have e31 := jsStartsWith_digit_exclusive a.questionId (p := "3") (q := "1")
      rfl rfl (by decide)
    have e32 := jsStartsWith_digit_exclusive a.questionId (p := "3") (q := "2")
      rfl rfl (by decide)
    cases hinc : includedB a with
    | false =>
      simp [hinc]
      omega
    | true =>
      rcases ha with h1 | h2 | h3
      · simp [hinc, h1, e12 h1, e13 h1]
        omega
      · simp [hinc, h2, e21 h2, e23 h2]
        omega
      · simp [hinc, h3, e31 h3, e32 h3]
        omega

/-- Under the SEE shape, the ten per-question-number slot groups together
count every included slot exactly once (`parseInt` keys are functional, so
the groups are disjoint). -/

theorem seeGroups_length_sum (cfgs : List QuestionConfig) (h : seeShape cfgs) :
    ((seeGroups cfgs).map fun g => g.cfgs.length).sum = (cfgs.filter includedB).length := by
  induction cfgs with
  | nil => rfl
  | cons a rest ih =>
    have hrest : seeShape rest := fun q hq => h q (List.mem_cons_of_mem a hq)
    obtain ⟨n, hn, hn1, hn10⟩ := h a (List.mem_cons_self a rest)
    have ihr := ih hrest
    simp only [seeGroups, seePairs, List.map_cons, List.map_nil, List.sum_cons,
      List.sum_nil] at ihr ⊢
    rw [filter_cons_length, filter_cons_length, filter_cons_length, filter_cons_length,
      filter_cons_length, filter_cons_length, filter_cons_length, filter_cons_length,
      filter_cons_length, filter_cons_length, filter_cons_length, hn]
    cases hinc : includedB a with
    | false =>
      simp [hinc]
      omega
    | true =>
      interval_cases n <;> simp [hinc] <;> omega

theorem findMatchingQuestions_empty_pool (config : QuestionConfig)
    (hint : Option String) : findMatchingQuestions [] config hint = [] := rfl

theorem assembleSlots_empty_pool_sources (hint : Option String) (sec : Option Nat)
    (co : Option Int) (rand : Nat → Nat) :
    ∀ (cfgs : List QuestionConfig) (k : Nat),
      ∀ q ∈ (assembleSlots [] hint sec co rand cfgs k).1, q.source = "ai_generated" := by
  intro cfgs
  induction cfgs with
  | nil => intro k q hq; cases hq
  | cons c rest ih =>
    intro k q hq
    rw [assembleSlots, findMatchingQuestions_empty_pool] at hq
    rcases List.mem_cons.1 hq with rfl | hq
    · rfl
    · exact ih (k + 1) q hq

theorem assembleGroups_empty_pool_sources (rand : Nat → Nat) :
    ∀ (gs : List SlotGroup) (k : Nat),
      ∀ q ∈ assembleGroups [] rand gs k, q.source = "ai_generated" := by
  intro gs
  induction gs with
  | nil => intro k q hq; cases hq
  | cons g rest ih =>
    intro k q hq
    rw [assembleGroups] at hq
    rcases List.mem_append.1 hq with hq | hq
    · exact assembleSlots_empty_pool_sources g.hint g.sec g.co rand g.cfgs k q hq
    · exact ih _ q hq

theorem generate_empty_slots (examType : String) (pool : List ProcessedQuestion)
    (rand : Nat → Nat) :
    generateQuestionsFromProcessedData examType [] pool rand = [] := by
  cases h : examType == "CIE" <;>
    simp [generateQuestionsFromProcessedData, h, cieGroups, seeGroups, seePairs,
      assembleGroups, assembleSlots]

theorem assembleSlots_ids (pool : List ProcessedQuestion) (hint : Option String)
    (sec : Option Nat) (co : Option Int) (rand : Nat → Nat) :
    ∀ (cfgs : List QuestionConfig) (k : Nat),
      (assembleSlots pool hint sec co rand cfgs k).1.map (fun q => q.questionId)
        = cfgs.map (fun c => c.questionId) := by
  intro cfgs
  induction cfgs with
  | nil => intro k; rfl
  | cons c rest ih =>
    intro k
    rw [assembleSlots]
    cases findMatchingQuestions pool c hint with
    | nil =>
      rw [List.map_cons, ih (k + 1), List.map_cons]
      rfl
    | cons sel tl =>
      rw [List.map_cons, ih k, List.map_cons]
      rfl

theorem assembleGroups_ids (pool : List ProcessedQuestion) (rand : Nat → Nat) :
    ∀ (gs : List SlotGroup) (k : Nat),
      (assembleGroups pool rand gs k).map (fun q => q.questionId)
        = gs.flatMap (fun g => g.cfgs.map (fun c => c.questionId)) := by
  intro gs
  induction gs with
  | nil => intro k; rfl
  | cons g rest ih =>
    intro k
    rw [assembleGroups, List.flatMap_cons]
    simp only [List.map_append, assembleSlots_ids, ih]

/-- **C1.** For every slot-configuration list of the respective exam
template (slot ids start with a section digit for CIE, resp. parse to a
question number 1..10 for SEE — the shape both setup pages create and
preserve) and every candidate pool, `generateQuestionsFromProcessedData`
returns exactly one assigned question per included slot (a slot is included
when its id does not end in `'c'` or its `includeC` flag is true), each
assigned question carrying its slot's id in iteration order; with an
empty pool every assigned question has source `'ai_generated'`; an empty
slot list yields an empty output rather than an error. -/

theorem assemble_one_per_included_slot
    (cfgsC cfgsS : List QuestionConfig) (pool : List ProcessedQuestion)
    (rand : Nat → Nat) (examType : String)
    (hC : cieShape cfgsC) (hS : seeShape cfgsS) :
    (generateQuestionsFromProcessedData "CIE" cfgsC pool rand).length
        = (cfgsC.filter includedB).length
    ∧ (generateQuestionsFromProcessedData "SEE" cfgsS pool rand).length
        = (cfgsS.filter includedB).length
    ∧ (∀ q ∈ generateQuestionsFromProcessedData "CIE" cfgsC [] rand,
        q.source = "ai_generated")
    ∧ (∀ q ∈ generateQuestionsFromProcessedData "SEE" cfgsS [] rand,
        q.source = "ai_generated")
    ∧ generateQuestionsFromProcessedData examType [] pool rand = []
    ∧ (generateQuestionsFromProcessedData "CIE" cfgsC pool rand).map
          (fun q => q.questionId)
        = (cieGroups cfgsC).flatMap (fun g => g.cfgs.map (fun c => c.questionId))
    ∧ (generateQuestionsFromProcessedData "SEE" cfgsS pool rand).map
          (fun q => q.questionId)
        = (seeGroups cfgsS).flatMap (fun g => g.cfgs.map (fun c => c.questionId)) := by
  refine ⟨?_, ?_, ?_, ?_, generate_empty_slots examType pool rand,
    assembleGroups_ids pool rand (cieGroups cfgsC) 0,
    assembleGroups_ids pool rand (seeGroups cfgsS) 0⟩
  · rw [show generateQuestionsFromProcessedData "CIE" cfgsC pool rand
        = assembleGroups pool rand (cieGroups cfgsC) 0 from rfl]
    rw [assembleGroups_length]
    exact cieGroups_length_sum cfgsC hC
  · rw [show generateQuestionsFromProcessedData "SEE" cfgsS pool rand
        = assembleGroups pool rand (seeGroups cfgsS) 0 from rfl]
    rw [assembleGroups_length]
    exact seeGroups_length_sum cfgsS hS
  · exact fun q hq => assembleGroups_empty_pool_sources rand (cieGroups cfgsC) 0 q hq
  · exact fun q hq => assembleGroups_empty_pool_sources rand (seeGroups cfgsS) 0 q hq

/-- Witness for C1 at the concrete default slot lists of both setup pages,
an empty pool, and a constant random stream: 6 included CIE slots give 6
questions, 20 included SEE slots give 20 questions. -/

theorem assemble_one_per_included_slot_witness :
    (generateQuestionsFromProcessedData "CIE" CieExamSetup.initializeQuestionConfigs
        [] (fun _ => 0)).length
      = (CieExamSetup.initializeQuestionConfigs.filter includedB).length
    ∧ (generateQuestionsFromProcessedData "SEE" SemesterExamSetup.initializeQuestionConfigs
        [] (fun _ => 0)).length
      = (SemesterExamSetup.initializeQuestionConfigs.filter includedB).length
    ∧ (CieExamSetup.initializeQuestionConfigs.filter includedB).length = 6
    ∧ (SemesterExamSetup.initializeQuestionConfigs.filter includedB).length = 20 := by
  have h := assemble_one_per_included_slot CieExamSetup.initializeQuestionConfigs
    SemesterExamSetup.initializeQuestionConfigs [] (fun _ => 0) "CIE"
    (by unfold cieShape; decide) (seeShape_of_seeShapeB (by decide))
  exact ⟨h.1, h.2.1, by decide, by decide⟩

/-! ## Helper lemmas: marks validation -/

theorem markSum_go (l : List QuestionConfig) :
    ∀ init : Int,
      l.foldl (fun sum q =>
        if jsEndsWith q.questionId "c" && !q.includeC then sum else sum + q.marks) init
      = init + ((l.filter includedB).map (fun q => q.marks)).sum := by
  induction l with
  | nil => intro init; simp
  | cons q rest ih =>
    intro init
    have hcond : (jsEndsWith q.questionId "c" && !q.includeC) = !includedB q := by
      unfold includedB
      cases jsEndsWith q.questionId "c" <;> cases q.includeC <;> rfl
    rw [List.foldl_cons]
    show List.foldl _ (if jsEndsWith q.questionId "c" && !q.includeC then init
      else init + q.marks) rest = _
    rw [hcond]
    cases hinc : includedB q with
    | true =>
      rw [Bool.not_true, if_neg (by simp)]
      rw [ih, List.filter_cons_of_pos hinc]
      simp
      omega
    | false =>
      rw [Bool.not_false, if_pos rfl]
      rw [ih, List.filter_cons_of_neg (by simp [hinc])]

theorem markSum_eq (l : List QuestionConfig) :
    markSum l = ((l.filter includedB).map (fun q => q.marks)).sum := by
  have h := markSum_go l 0
  simpa [markSum] using h

theorem cieSectionTotal_eq (cfgs : List QuestionConfig) (s : String) :
    cieSectionTotal cfgs s = cieIncludedSum cfgs s := by
  unfold cieSectionTotal cieIncludedSum
  rw [markSum_eq, List.filter_filter]
  rw [List.filter_congr (fun q _ =>
    Bool.and_comm (includedB q) (jsStartsWith q.questionId s))]

theorem coConsistent_of_coConsistentB {cfgs : List QuestionConfig}
    (h : coConsistentB cfgs = true) : coConsistent cfgs := by
  intro q hq n hn
  have := (List.all_eq_true.1 h) q hq
  rw [hn] at this
  exact eq_of_beq this

theorem seeSetTotal_eq (cfgs : List QuestionConfig) (hco : coConsistent cfgs) (n : Nat) :
    seeSetTotal cfgs (((n : Int) + 1) / 2) n = seeIncludedSum cfgs n := by
  unfold seeSetTotal seeIncludedSum
  rw [markSum_eq, List.filter_filter]
  have hf : List.filter (fun a =>
      includedB a && (a.co == some (((n : Int) + 1) / 2)
        && (jsParseInt a.questionId == some n))) cfgs
      = List.filter (fun q => (jsParseInt q.questionId == some n) && includedB q) cfgs := by
    apply List.filter_congr
    intro q hq
    cases hp : (jsParseInt q.questionId == some n) with
    | false => simp [hp]
    | true =>
      have hn : jsParseInt q.questionId = some n := eq_of_beq hp
      have := hco q hq n hn
      simp [hp, this]
  rw [hf]

theorem seePairs_spec :
    ∀ pr ∈ seePairs, pr.2 = ((pr.1 : Int) + 1) / 2 ∧ 1 ≤ pr.1 ∧ pr.1 ≤ 10 := by
  intro pr hpr
  simp only [seePairs] at hpr
  fin_cases hpr <;> norm_num

theorem mem_seePairs (n : Nat) (h1 : 1 ≤ n) (h10 : n ≤ 10) :
    (n, ((n : Int) + 1) / 2) ∈ seePairs := by
  interval_cases n <;> decide

theorem validateCieMarks_none_iff (cfgs : List QuestionConfig) :
    validateCieMarks cfgs = none ↔
      ∀ s, (s = "1" ∨ s = "2" ∨ s = "3") → cieIncludedSum cfgs s = 15 := by
  unfold validateCieMarks
  rw [List.find?_eq_none]
  constructor
  · intro h s hs
    have hmem : (s, cieSectionTotal cfgs s) ∈
        (["1", "2", "3"].map fun x => (x, cieSectionTotal cfgs x)) := by
      rcases hs with rfl | rfl | rfl <;> simp
    have := h _ hmem
    rw [← cieSectionTotal_eq]
    simpa using this
  · intro h pr hpr
    simp only [List.mem_map] at hpr
    obtain ⟨s, hsmem, rfl⟩ := hpr
    have hs : s = "1" ∨ s = "2" ∨ s = "3" := by simpa using hsmem
    simp [cieSectionTotal_eq, h s hs]

theorem validateCieMarks_some (cfgs : List QuestionConfig) {s : String} {t : Int}
    (h : validateCieMarks cfgs = some (s, t)) :
    (s = "1" ∨ s = "2" ∨ s = "3") ∧ t = cieIncludedSum cfgs s ∧ t ≠ 15 := by
  unfold validateCieMarks at h
  have hp := List.find?_some h
  have hm := List.mem_of_find?_eq_some h
  simp only [List.mem_map] at hm
  obtain ⟨s', hsmem, heq⟩ := hm
  injection heq with h1 h2
  subst h1; subst h2
  exact ⟨by simpa using hsmem, cieSectionTotal_eq cfgs s', by simpa using hp⟩

theorem validateSeeMarks_none_iff (cfgs : List QuestionConfig)
    (hco : coConsistent cfgs) :
    validateSeeMarks cfgs = none ↔
      ∀ n : Nat, 1 ≤ n → n ≤ 10 → seeIncludedSum cfgs n = 20 := by
  unfold validateSeeMarks
  rw [List.find?_eq_none]
  constructor
  · intro h n h1 h10
    have hmem : (n, ((n : Int) + 1) / 2, seeSetTotal cfgs (((n : Int) + 1) / 2) n) ∈
        (seePairs.map fun pr => (pr.1, pr.2, seeSetTotal cfgs pr.2 pr.1)) :=
      List.mem_map.2 ⟨(n, ((n : Int) + 1) / 2), mem_seePairs n h1 h10, rfl⟩
    have := h _ hmem
    rw [← seeSetTotal_eq cfgs hco n]
    simpa using this
  · intro h pr hpr
    simp only [List.mem_map] at hpr
    obtain ⟨pr0, hpr0, rfl⟩ := hpr
    obtain ⟨hc, h1, h10⟩ := seePairs_spec pr0 hpr0
    have he := seeSetTotal_eq cfgs hco pr0.1
    rw [← hc] at he
    simp [he, h pr0.1 h1 h10]

theorem validateSeeMarks_some (cfgs : List QuestionConfig)
    (hco : coConsistent cfgs) {n : Nat} {c t : Int}
    (h : validateSeeMarks cfgs = some (n, c, t)) :
    1 ≤ n ∧ n ≤ 10 ∧ t = seeIncludedSum cfgs n ∧ t ≠ 20 := by
  unfold validateSeeMarks at h
  have hp := List.find?_some h
  have hm := List.mem_of_find?_eq_some h
  simp only [List.mem_map] at hm
  obtain ⟨pr0, hpr0, heq⟩ := hm
  obtain ⟨hc, h1, h10⟩ := seePairs_spec pr0 hpr0
  injection heq with e1 e2
  injection e2 with e2 e3
  subst e1; subst e2; subst e3
  have he := seeSetTotal_eq cfgs hco pr0.1
  rw [← hc] at he
  exact ⟨h1, h10, he, by simpa using hp⟩

theorem cie_submit_blocked_marks {cfgs : List QuestionConfig} {s : String} {t : Int}
    (h : validateCieMarks cfgs = some (s, t)) :
    CieExamSetup.handleSubmit cfgs = .blocked "Invalid marks distribution"
      ("Section " ++ s ++ " must have a total of 15 marks. Current total: " ++ toString t) := by
  unfold CieExamSetup.handleSubmit
  rw [h]

theorem see_submit_blocked_marks {cfgs : List QuestionConfig} {n : Nat} {c t : Int}
    (h : validateSeeMarks cfgs = some (n, c, t)) :
    SemesterExamSetup.handleSubmit cfgs = .blocked "Invalid marks distribution"
      ("Question " ++ toString n ++ " (CO" ++ toString c
        ++ ") must have a total of 20 marks. Current total: " ++ toString t) := by
  unfold SemesterExamSetup.handleSubmit
  rw [h]

/-- **C2.** The marks validation succeeds iff, for CIE, the included-slot
marks of each section prefix "1", "2", "3" sum to exactly 15, and, for SEE,
the included-slot marks of each question number 1..10 sum to exactly 20
(given the `co` fields carry their initialization-derived values, which no
handler ever changes); a violation blocks `handleSubmit` with a message
naming the offending section resp. question number together with the actual
computed total. -/

theorem marks_validation_iff (cfgsC cfgsS : List QuestionConfig)
    (hco : coConsistent cfgsS) :
    (validateCieMarks cfgsC = none ↔
      ∀ s, (s = "1" ∨ s = "2" ∨ s = "3") → cieIncludedSum cfgsC s = 15)
    ∧ (∀ (s : String) (t : Int), validateCieMarks cfgsC = some (s, t) →
        (s = "1" ∨ s = "2" ∨ s = "3") ∧ t = cieIncludedSum cfgsC s ∧ t ≠ 15
        ∧ CieExamSetup.handleSubmit cfgsC = .blocked "Invalid marks distribution"
            ("Section " ++ s ++ " must have a total of 15 marks. Current total: "
              ++ toString t))
    ∧ (validateSeeMarks cfgsS = none ↔
        ∀ n : Nat, 1 ≤ n → n ≤ 10 → seeIncludedSum cfgsS n = 20)
    ∧ (∀ (n : Nat) (c t : Int), validateSeeMarks cfgsS = some (n, c, t) →
        1 ≤ n ∧ n ≤ 10 ∧ t = seeIncludedSum cfgsS n ∧ t ≠ 20
        ∧ SemesterExamSetup.handleSubmit cfgsS = .blocked "Invalid marks distribution"
            ("Question " ++ toString n ++ " (CO" ++ toString c
              ++ ") must have a total of 20 marks. Current total: " ++ toString t)) := by
  refine ⟨validateCieMarks_none_iff cfgsC, ?_, validateSeeMarks_none_iff cfgsS hco, ?_⟩
  · intro s t h
    obtain ⟨hs, ht, hne⟩ := validateCieMarks_some cfgsC h
    exact ⟨hs, ht, hne, cie_submit_blocked_marks h⟩
  · intro n c t h
    obtain ⟨h1, h10, ht, hne⟩ := validateSeeMarks_some cfgsS hco h
    exact ⟨h1, h10, ht, hne, see_submit_blocked_marks h⟩

/-- Witness for C2: the all-included 5/5/5 CIE configuration validates; the
SEE defaults (c parts excluded, 5+7 = 12 per question) fail with question
number 1 and actual total 12, and the submit message carries both. -/

theorem marks_validation_iff_witness :
    validateCieMarks cieValidCfgs = none
    ∧ validateSeeMarks SemesterExamSetup.initializeQuestionConfigs = some (1, 1, 12)
    ∧ (12 : Int) = seeIncludedSum SemesterExamSetup.initializeQuestionConfigs 1
    ∧ (12 : Int) ≠ 20
    ∧ SemesterExamSetup.handleSubmit SemesterExamSetup.initializeQuestionConfigs
        = .blocked "Invalid marks distribution"
            "Question 1 (CO1) must have a total of 20 marks. Current total: 12" := by
  have h := marks_validation_iff cieValidCfgs SemesterExamSetup.initializeQuestionConfigs
    (coConsistent_of_coConsistentB (by decide))
  have hsome : validateSeeMarks SemesterExamSetup.initializeQuestionConfigs
      = some (1, 1, 12) := by decide
  obtain ⟨_, _, ht, hne, hmsg⟩ := h.2.2.2 1 1 12 hsome
  refine ⟨h.1.mpr ?_, hsome, ht, hne, hmsg⟩
  intro s hs
  rcases hs with rfl | rfl | rfl <;> decide

/-- **C7 counterexample.** The claim says an exam type outside {CIE, SEE}
makes assembly fail with a configuration error.  Instead, the assembler has
no failure outcome at all: with exam type `"FOO"` it silently produces the
same non-empty output the SEE path produces. -/

theorem unknown_examtype_silently_see :
    generateQuestionsFromProcessedData "FOO" [slotW] [] (fun _ => 0)
      = generateQuestionsFromProcessedData "SEE" [slotW] [] (fun _ => 0)
    ∧ (generateQuestionsFromProcessedData "FOO" [slotW] [] (fun _ => 0)).length = 1
    ∧ (generateQuestionsFromProcessedData "FOO" [slotW] [] (fun _ => 0)).map
        (fun q => q.source) = ["ai_generated"] := by
  refine ⟨rfl, by decide, by decide⟩

/-- **C7 (amended).** Every exam type other than the exact string `"CIE"`
is processed by the SEE branch: unknown exam types are silently defaulted
to SEE processing, and no configuration error is raised. -/

theorem non_cie_processed_as_see (examType : String) (h : examType ≠ "CIE")
    (cfgs : List QuestionConfig) (pool : List ProcessedQuestion) (rand : Nat → Nat) :
    generateQuestionsFromProcessedData examType cfgs pool rand
      = generateQuestionsFromProcessedData "SEE" cfgs pool rand := by
  unfold generateQuestionsFromProcessedData
  have he : (examType == "CIE") = false := by
    simpa using h
  rw [he]
  rfl

/-- Witness for C7 (amended) at the concrete exam type `"FOO"`. -/

theorem non_cie_processed_as_see_witness :
    generateQuestionsFromProcessedData "FOO" [slotW] [⟨"Q", 20, "L2", "Medium",
        "Process Management basics", "Unit 1", 9/10, "id1"⟩] (fun _ => 0)
      = generateQuestionsFromProcessedData "SEE" [slotW] [⟨"Q", 20, "L2", "Medium",
        "Process Management basics", "Unit 1", 9/10, "id1"⟩] (fun _ => 0) :=
  non_cie_processed_as_see "FOO" (by decide) [slotW] _ (fun _ => 0)

/-- **C8 counterexample.** Two configurations whose offending slot lists
differ (`["1a"]` vs `["2b"]`) produce the identical missing-topic failure:
the fixed toast pair carries no slot ids, contradicting the claim that the
failure carries the list of offending slot ids. -/

theorem missing_topic_generic_message :
    (cfgsMissingA.filter fun q => includedB q && q.topic == "").map
        (fun q => q.questionId) = ["1a"]
    ∧ (cfgsMissingB.filter fun q => includedB q && q.topic == "").map
        (fun q => q.questionId) = ["2b"]
    ∧ CieExamSetup.handleSubmit cfgsMissingA
        = .blocked "Missing topic selection" "Please select a topic for each active question"
    ∧ CieExamSetup.handleSubmit cfgsMissingB = CieExamSetup.handleSubmit cfgsMissingA := by
  refine ⟨by decide, by decide, by decide, by decide⟩

/-- **C8 (amended).** Validation rejects a configuration iff some included
slot has an empty topic filter (excluded `'c'` slots are exempt), and any
such configuration blocks both pages' submission; but the resulting failure
is the fixed generic message pair, independent of which slots offend. -/

theorem topic_validation_characterization (cfgs : List QuestionConfig) :
    (validateTopics cfgs = none ↔ ∀ q ∈ cfgs, includedB q = true → q.topic ≠ "")
    ∧ (validateTopics cfgs ≠ none →
        validateTopics cfgs
          = some ("Missing topic selection", "Please select a topic for each active question"))
    ∧ ((∃ q ∈ cfgs, includedB q = true ∧ q.topic = "") →
        CieExamSetup.handleSubmit cfgs ≠ .proceed
        ∧ SemesterExamSetup.handleSubmit cfgs ≠ .proceed) := by
  have hiff : validateTopics cfgs = none ↔ ∀ q ∈ cfgs, includedB q = true → q.topic ≠ "" := by
    unfold validateTopics
    constructor
    · intro h q hq hinc
      by_cases hc : (cfgs.filter includedB).any (fun q => q.topic == "") = true
      · rw [if_pos hc] at h; cases h
      · intro htop
        exact hc (List.any_eq_true.2 ⟨q, List.mem_filter.2 ⟨hq, hinc⟩, by simp [htop]⟩)
    · intro h
      rw [if_neg ?_]
      intro hc
      obtain ⟨q, hq, htop⟩ := List.any_eq_true.1 hc
      obtain ⟨hqm, hqi⟩ := List.mem_filter.1 hq
      exact h q hqm hqi (by simpa using htop)
  refine ⟨hiff, ?_, ?_⟩
  · intro h
    unfold validateTopics at *
    by_cases hc : (cfgs.filter includedB).any (fun q => q.topic == "") = true
    · rw [if_pos hc]
    · rw [if_neg hc] at h; exact absurd rfl h
  · intro ⟨q, hq, hinc, htop⟩
    have hv : validateTopics cfgs ≠ none := by
      rw [Ne, hiff]
      intro h
      exact h q hq hinc htop
    constructor
    · unfold CieExamSetup.handleSubmit
      cases hm : validateCieMarks cfgs with
      | some pr => simp
      | none =>
        cases ht : validateTopics cfgs with
        | some pr => simp
        | none => exact absurd ht hv
    · unfold SemesterExamSetup.handleSubmit
      cases hm : validateSeeMarks cfgs with
      | some pr => simp
      | none =>
        cases ht : validateTopics cfgs with
        | some pr => simp
        | none => exact absurd ht hv

/-- Witness for C8 (amended): the fully-topic'd configuration passes the
topic check; clearing slot 1a's topic blocks submission on both pages. -/

theorem topic_validation_characterization_witness :
    validateTopics cieValidCfgs = none
    ∧ CieExamSetup.handleSubmit cfgsMissingA ≠ .proceed
    ∧ SemesterExamSetup.handleSubmit cfgsMissingA ≠ .proceed := by
  refine ⟨(topic_validation_characterization cieValidCfgs).1.mpr (by decide), ?_, ?_⟩
  · exact ((topic_validation_characterization cfgsMissingA).2.2 (by decide)).1
  · exact ((topic_validation_characterization cfgsMissingA).2.2 (by decide)).2

/-! ## Helper lemmas: template texts contain their topic -/

theorem listIsPrefix_self_append (s t : List Char) : listIsPrefix s (s ++ t) = true := by
  induction s with
  | nil => rfl
  | cons a as ih => simp [listIsPrefix, ih]

theorem listIncludes_append (pre sub post : List Char) :
    listIncludes sub (pre ++ sub ++ post) = true := by
  induction pre with
  | nil =>
    rw [List.nil_append]
    cases h : sub ++ post with
    | nil =>
      have hs : sub = [] := (List.append_eq_nil.1 h).1
      rw [hs]; rfl
    | cons c t =>
      have hpf : listIsPrefix sub (c :: t) = true := by
        rw [← h]; exact listIsPrefix_self_append sub post
      rw [listIncludes, hpf, Bool.true_or]
  | cons p ps ih =>
    rw [List.cons_append, List.cons_append, listIncludes, ih, Bool.or_true]

/-- `(a ++ t ++ b).includes(t)` always holds. -/

theorem jsIncludes_append (a t b : String) : jsIncludes (a ++ t ++ b) t = true := by
  unfold jsIncludes
  rw [show (a ++ t ++ b).data = a.data ++ t.data ++ b.data by simp]
  exact listIncludes_append a.data t.data b.data

theorem getD_mem_of_lt {l : List String} {i : Nat} (h : i < l.length) :
    l.getD i "" ∈ l := by
  rw [List.getD_eq_getElem?_getD, List.getElem?_eq_getElem h]
  exact List.getElem_mem h

theorem templatesFor_cases (level topic : String) :
    templatesFor level topic = easyTemplates topic
    ∨ templatesFor level topic = mediumTemplates topic
    ∨ templatesFor level topic = hardTemplates topic := by
  unfold templatesFor
  by_cases h1 : (level == "easy") = true
  · rw [if_pos h1]; exact Or.inl rfl
  · rw [if_neg h1]
    by_cases h2 : (level == "medium") = true
    · rw [if_pos h2]; exact Or.inr (Or.inl rfl)
    · rw [if_neg h2]
      by_cases h3 : (level == "hard") = true
      · rw [if_pos h3]; exact Or.inr (Or.inr rfl)
      · rw [if_neg h3]; exact Or.inr (Or.inl rfl)

theorem templatesFor_length (level topic : String) :
    (templatesFor level topic).length = 4 := by
  rcases templatesFor_cases level topic with h | h | h <;> rw [h] <;> rfl

theorem templatesFor_includes (level topic : String) :
    ∀ x ∈ templatesFor level topic, jsIncludes x topic = true := by
  have he : ∀ x ∈ easyTemplates topic, jsIncludes x topic = true := by
    intro x hx
    simp only [easyTemplates, List.mem_cons, List.not_mem_nil, or_false] at hx
    rcases hx with rfl | rfl | rfl | rfl <;> exact jsIncludes_append _ topic _
  have hm : ∀ x ∈ mediumTemplates topic, jsIncludes x topic = true := by
    intro x hx
    simp only [mediumTemplates, List.mem_cons, List.not_mem_nil, or_false] at hx
    rcases hx with rfl | rfl | rfl | rfl <;> exact jsIncludes_append _ topic _
  have hh : ∀ x ∈ hardTemplates topic, jsIncludes x topic = true := by
    intro x hx
    simp only [hardTemplates, List.mem_cons, List.not_mem_nil, or_false] at hx
    rcases hx with rfl | rfl | rfl | rfl <;> exact jsIncludes_append _ topic _
  intro x hx
  rcases templatesFor_cases level topic with h | h | h <;> rw [h] at hx
  · exact he x hx
  · exact hm x hx
  · exact hh x hx

theorem serverTemplatesFor_cases (level topic : String) :
    serverTemplatesFor level topic = serverEasyTemplates topic
    ∨ serverTemplatesFor level topic = serverMediumTemplates topic
    ∨ serverTemplatesFor level topic = serverHardTemplates topic := by
  unfold serverTemplatesFor
  by_cases h1 : (level == "easy") = true
  · rw [if_pos h1]; exact Or.inl rfl
  · rw [if_neg h1]
    by_cases h2 : (level == "medium") = true
    · rw [if_pos h2]; exact Or.inr (Or.inl rfl)
    · rw [if_neg h2]
      by_cases h3 : (level == "hard") = true
      · rw [if_pos h3]; exact Or.inr (Or.inr rfl)
      · rw [if_neg h3]; exact Or.inr (Or.inl rfl)

theorem serverTemplatesFor_length (level topic : String) :
    (serverTemplatesFor level topic).length = 4 := by
  rcases serverTemplatesFor_cases level topic with h | h | h <;> rw [h] <;> rfl

theorem serverTemplatesFor_includes (level topic : String) :
    ∀ x ∈ serverTemplatesFor level topic, jsIncludes x topic = true := by
  have he : ∀ x ∈ serverEasyTemplates topic, jsIncludes x topic = true := by
    intro x hx
    simp only [serverEasyTemplates, List.mem_cons, List.not_mem_nil, or_false] at hx
    rcases hx with rfl | rfl | rfl | rfl <;> exact jsIncludes_append _ topic _
  have hm : ∀ x ∈ serverMediumTemplates topic, jsIncludes x topic = true := by
    intro x hx
    simp only [serverMediumTemplates, List.mem_cons, List.not_mem_nil, or_false] at hx
    rcases hx with rfl | rfl | rfl | rfl <;> exact jsIncludes_append _ topic _
  have hh : ∀ x ∈ serverHardTemplates topic, jsIncludes x topic = true := by
    intro x hx
    simp only [serverHardTemplates, List.mem_cons, List.not_mem_nil, or_false] at hx
    rcases hx with rfl | rfl | rfl | rfl <;> exact jsIncludes_append _ topic _
  intro x hx
  rcases serverTemplatesFor_cases level topic with h | h | h <;> rw [h] at hx
  · exact he x hx
  · exact hm x hx
  · exact hh x hx

theorem generateAIQuestion_text_mem (config : QuestionConfig) (sec : Option Nat)
    (co : Option Int) (r : Nat) :
    (generateAIQuestion config sec co r).text ∈ templatesFor config.level config.topic := by
  show (templatesFor config.level config.topic).getD
    (r % (templatesFor config.level config.topic).length) "" ∈ _
  apply getD_mem_of_lt
  rw [templatesFor_length]
  exact Nat.mod_lt _ (by omega)

theorem generateAIQuestionForConfig_text_mem (config : QuestionConfig) (sec : Option Nat)
    (co : Option Int) (rTopic rTmpl : Nat) :
    (generateAIQuestionForConfig config sec co rTopic rTmpl).text
      ∈ serverTemplatesFor config.level (serverChosenTopic config rTopic) := by
  show (serverTemplatesFor config.level (serverChosenTopic config rTopic)).getD
    (rTmpl % (serverTemplatesFor config.level (serverChosenTopic config rTopic)).length) "" ∈ _
  apply getD_mem_of_lt
  rw [serverTemplatesFor_length]
  exact Nat.mod_lt _ (by omega)

/-- **C6.** Both fallback generators produce, for every slot and every
random draw, a question with source `'ai_generated'`, marks and difficulty
copied verbatim from the slot, bloom level fixed by the mapping easy→L1,
medium→L3, hard→L5, and templated text containing the slot's topic filter
as a literal substring whenever it is non-empty. -/

theorem fallback_generator_shape (config : QuestionConfig) (sec : Option Nat)
    (co : Option Int) (r rTopic rTmpl : Nat) :
    ((generateAIQuestion config sec co r).source = "ai_generated"
      ∧ (generateAIQuestion config sec co r).marks = config.marks
      ∧ (generateAIQuestion config sec co r).difficulty = config.level
      ∧ (config.level = "easy" → (generateAIQuestion config sec co r).bloomLevel = "L1")
      ∧ (config.level = "medium" → (generateAIQuestion config sec co r).bloomLevel = "L3")
      ∧ (config.level = "hard" → (generateAIQuestion config sec co r).bloomLevel = "L5")
      ∧ (config.topic ≠ "" →
          jsIncludes (generateAIQuestion config sec co r).text config.topic = true))
    ∧ ((generateAIQuestionForConfig config sec co rTopic rTmpl).source = "ai_generated"
      ∧ (generateAIQuestionForConfig config sec co rTopic rTmpl).marks = config.marks
      ∧ (generateAIQuestionForConfig config sec co rTopic rTmpl).difficulty = config.level
      ∧ (config.level = "easy" →
          (generateAIQuestionForConfig config sec co rTopic rTmpl).bloomLevel = "L1")
      ∧ (config.level = "medium" →
          (generateAIQuestionForConfig config sec co rTopic rTmpl).bloomLevel = "L3")
      ∧ (config.level = "hard" →
          (generateAIQuestionForConfig config sec co rTopic rTmpl).bloomLevel = "L5")
      ∧ (config.topic ≠ "" →
          jsIncludes (generateAIQuestionForConfig config sec co rTopic rTmpl).text
            config.topic = true)) := by
  constructor
  · refine ⟨rfl, rfl, rfl, ?_, ?_, ?_, ?_⟩
    · intro h; simp [generateAIQuestion, h]
    · intro h; simp [generateAIQuestion, h]
    · intro h; simp [generateAIQuestion, h]
    · intro _
      exact templatesFor_includes config.level config.topic _
        (generateAIQuestion_text_mem config sec co r)
  · refine ⟨rfl, rfl, rfl, ?_, ?_, ?_, ?_⟩
    · intro h; simp [generateAIQuestionForConfig, h]
    · intro h; simp [generateAIQuestionForConfig, h]
    · intro h; simp [generateAIQuestionForConfig, h]
    · intro h
      have hchoice : serverChosenTopic config rTopic = config.topic := by
        unfold serverChosenTopic
        rw [if_neg (by simpa using h)]
      have := serverTemplatesFor_includes config.level (serverChosenTopic config rTopic) _
        (generateAIQuestionForConfig_text_mem config sec co rTopic rTmpl)
      rwa [hchoice] at this

/-- Witness for C6 at the spec's example: a medium slot with topic
"Process Management" against an empty pool (so the fallback fires at every
draw) yields `source = ai_generated`, `bloomLevel = "L3"`, and text
containing the literal substring "Process Management". -/

theorem fallback_generator_shape_witness :
    (generateAIQuestion ⟨"1a", "medium", 5, true, none, "Process Management"⟩
        none none 2).source = "ai_generated"
    ∧ (generateAIQuestion ⟨"1a", "medium", 5, true, none, "Process Management"⟩
        none none 2).bloomLevel = "L3"
    ∧ jsIncludes (generateAIQuestion ⟨"1a", "medium", 5, true, none, "Process Management"⟩
        none none 2).text "Process Management" = true := by
  have h := fallback_generator_shape
    ⟨"1a", "medium", 5, true, none, "Process Management"⟩ none none 2 0 0
  exact ⟨h.1.1, h.1.2.2.2.2.1 rfl, h.1.2.2.2.2.2.2 (by decide)⟩

/-- **C10.** For a slot whose difficulty level is not exactly one of the
lowercase strings "easy", "medium", "hard" (e.g. "Easy"), both fallback
generators still return a question whose text is drawn from the medium-tier
template set while its bloom level is "L5" (the hard-tier value), so
template tier and bloom level disagree. -/

theorem unknown_level_medium_template_l5_bloom (config : QuestionConfig)
    (sec : Option Nat) (co : Option Int) (r rTopic rTmpl : Nat)
    (h1 : config.level ≠ "easy") (h2 : config.level ≠ "medium")
    (h3 : config.level ≠ "hard") :
    (generateAIQuestion config sec co r).bloomLevel = "L5"
    ∧ (generateAIQuestion config sec co r).text ∈ mediumTemplates config.topic
    ∧ (generateAIQuestionForConfig config sec co rTopic rTmpl).bloomLevel = "L5"
    ∧ (generateAIQuestionForConfig config sec co rTopic rTmpl).text
        ∈ serverMediumTemplates (serverChosenTopic config rTopic) := by
  have b1 : (config.level == "easy") = false := by simpa using h1
  have b2 : (config.level == "medium") = false := by simpa using h2
  have b3 : (config.level == "hard") = false := by simpa using h3
  have hmt : templatesFor config.level config.topic = mediumTemplates config.topic := by
    unfold templatesFor
    rw [if_neg (by simp [b1]), if_neg (by simp [b2]), if_neg (by simp [b3])]
  have hmts : serverTemplatesFor config.level (serverChosenTopic config rTopic)
      = serverMediumTemplates (serverChosenTopic config rTopic) := by
    unfold serverTemplatesFor
    rw [if_neg (by simp [b1]), if_neg (by simp [b2]), if_neg (by simp [b3])]
  refine ⟨?_, ?_, ?_, ?_⟩
  · simp [generateAIQuestion, b1, b2]
  · have := generateAIQuestion_text_mem config sec co r
    rwa [hmt] at this
  · simp [generateAIQuestionForConfig, b1, b2]
  · have := generateAIQuestionForConfig_text_mem config sec co rTopic rTmpl
    rwa [hmts] at this

/-- Witness for C10 at the capitalized level "Easy": bloom level "L5" with
a medium-tier text. -/

theorem unknown_level_medium_template_l5_bloom_witness :
    (generateAIQuestion ⟨"1a", "Easy", 5, true, none, "paging"⟩ none none 0).bloomLevel
        = "L5"
    ∧ (generateAIQuestion ⟨"1a", "Easy", 5, true, none, "paging"⟩ none none 0).text
        ∈ mediumTemplates "paging" := by
  have h := unknown_level_medium_template_l5_bloom
    ⟨"1a", "Easy", 5, true, none, "paging"⟩ none none 0 0 0
    (by decide) (by decide) (by decide)
  exact ⟨h.1, h.2.1⟩

/-- **C3 counterexample.** The server CIE filter includes an entry whose
matched unit contains the hint even though its matched topic does not
contain the slot's (non-empty) topic filter; the claim's conjunction, which
always requires topic containment, excludes it. -/

theorem server_cie_filter_unit_bypass :
    serverCieFilterPred cfgDeadlocks 1 qUnitOnly = true
    ∧ ¬ claimC3Pred 2 (some "unit 1") cfgDeadlocks qUnitOnly := by
  constructor
  · decide
  · intro h
    exact absurd h.2.2.1 (by decide)

/-- **C3 (amended).** The client matcher filter is exactly the claim's
condition with tolerance 2 (its structural-hint clause is vacuous, so the
unit hint never affects inclusion); the server SEE filter is the claim's
condition with tolerance 3 and falsy-field guards (empty difficulty/topic
or zero predicted marks never match); the server CIE filter differs: with
the unit hint, unit-containment may replace topic-containment entirely. -/

theorem matcher_filter_characterization (config : QuestionConfig)
    (q : ProcessedQuestion) (hint : Option String) (sec : Nat) :
    (clientFilterPred config q = true ↔ claimC3Pred 2 hint config q)
    ∧ (serverSeeFilterPred config q = true ↔
        (q.difficulty ≠ "" ∧ jsToLower q.difficulty = jsToLower config.level)
        ∧ (q.predicted_marks ≠ 0 ∧ (q.predicted_marks - config.marks).natAbs ≤ 3)
        ∧ (config.topic = ""
            ∨ (q.matched_topic ≠ ""
                ∧ jsIncludes (jsToLower q.matched_topic) (jsToLower config.topic) = true)))
    ∧ (serverCieFilterPred config sec q = true ↔
        (q.difficulty ≠ "" ∧ jsToLower q.difficulty = jsToLower config.level)
        ∧ (q.predicted_marks ≠ 0 ∧ (q.predicted_marks - config.marks).natAbs ≤ 2)
        ∧ ((q.matched_unit ≠ ""
              ∧ jsIncludes (jsToLower q.matched_unit) ("unit " ++ Nat.repr sec) = true)
            ∨ (config.topic = ""
                ∨ (q.matched_topic ≠ ""
                    ∧ jsIncludes (jsToLower q.matched_topic) (jsToLower config.topic)
                        = true)))) := by
  refine ⟨?_, ?_, ?_⟩
  · cases hint with
    | none =>
      unfold clientFilterPred claimC3Pred
      simp only [Bool.and_eq_true, Bool.or_eq_true, beq_iff_eq, decide_eq_true_eq]
      tauto
    | some u =>
      unfold clientFilterPred claimC3Pred
      simp only [Bool.and_eq_true, Bool.or_eq_true, beq_iff_eq, decide_eq_true_eq]
      tauto
  · unfold serverSeeFilterPred
    simp only [Bool.and_eq_true, Bool.or_eq_true, beq_iff_eq, bne_iff_ne,
      decide_eq_true_eq]
    tauto
  · unfold serverCieFilterPred
    simp only [Bool.and_eq_true, Bool.or_eq_true, beq_iff_eq, bne_iff_ne,
      decide_eq_true_eq]
    tauto

/-- Witness for C3 (amended): the spec's own example entry passes the
client filter, and the claim condition holds of it. -/

theorem matcher_filter_characterization_witness :
    clientFilterPred ⟨"1a", "medium", 5, true, none, "Process Management"⟩
        ⟨"Explain process scheduling.", 5, "L2", "Medium",
          "Process Management and Scheduling", "Unit 1", 9/10, "q2"⟩ = true
    ∧ claimC3Pred 2 (some "Unit 1") ⟨"1a", "medium", 5, true, none, "Process Management"⟩
        ⟨"Explain process scheduling.", 5, "L2", "Medium",
          "Process Management and Scheduling", "Unit 1", 9/10, "q2"⟩ := by
  have h := (matcher_filter_characterization
    ⟨"1a", "medium", 5, true, none, "Process Management"⟩
    ⟨"Explain process scheduling.", 5, "L2", "Medium",
      "Process Management and Scheduling", "Unit 1", 9/10, "q2"⟩
    (some "Unit 1") 1).1
  exact ⟨by decide, h.mp (by decide)⟩

/-! ## C4: ranking -/

/-- Two candidates with equal marks bonus and equal unit bonus compare by
similarity alone. -/

theorem score_mono_helper (config : QuestionConfig) (hint : Option String)
    (a b : ProcessedQuestion)
    (h : scoreQ config hint b ≤ scoreQ config hint a)
    (hmb : (a.predicted_marks == config.marks) = (b.predicted_marks == config.marks))
    (hub : ∀ u, hint = some u →
      jsIncludes a.matched_unit u = jsIncludes b.matched_unit u) :
    b.topic_similarity ≤ a.topic_similarity := by
  cases hint with
  | none =>
    simp only [scoreQ] at h
    rw [← hmb] at h
    by_cases hm : (a.predicted_marks == config.marks) = true
    · rw [if_pos hm] at h; linarith
    · rw [if_neg hm] at h; linarith
  | some u =>
    have hub' : jsIncludes a.matched_unit u = jsIncludes b.matched_unit u := hub u rfl
    simp only [scoreQ] at h
    rw [← hmb, ← hub'] at h
    by_cases hm : (a.predicted_marks == config.marks) = true <;>
      by_cases hu : jsIncludes a.matched_unit u = true
    · rw [if_pos hm, if_pos hu] at h; linarith
    · rw [if_pos hm, if_neg hu] at h; linarith
    · rw [if_neg hm, if_pos hu] at h; linarith
    · rw [if_neg hm, if_neg hu] at h; linarith

/-- **C4.** Each of the two score-ranked matchers (the client
`findMatchingQuestions` sort and the server CIE sort) orders its filtered
candidates by descending score — `topicSimilarity * 100`, plus 50 on an
exact marks match, plus 25 when the matched unit contains the structural
hint — with ties keeping the original pool order (stable sort); hence, for
two candidates with identical marks bonus and unit bonus, the one with the
higher `topicSimilarity` ranks no lower. -/

theorem matcher_ranking_sorted_stable (pool : List ProcessedQuestion)
    (config : QuestionConfig) (hint : Option String) (sec : Nat) :
    (findMatchingQuestions pool config hint).Pairwise
        (fun a b => scoreQ config hint b ≤ scoreQ config hint a)
    ∧ (∀ s : Rat,
        (findMatchingQuestions pool config hint).filter
            (fun q => scoreQ config hint q == s)
          = (pool.filter (clientFilterPred config)).filter
              (fun q => scoreQ config hint q == s))
    ∧ (∀ i j : Fin (findMatchingQuestions pool config hint).length, i < j →
        scoreQ config hint ((findMatchingQuestions pool config hint).get j)
          ≤ scoreQ config hint ((findMatchingQuestions pool config hint).get i))
    ∧ (∀ i j : Fin (findMatchingQuestions pool config hint).length, i < j →
        (((findMatchingQuestions pool config hint).get i).predicted_marks == config.marks)
          = (((findMatchingQuestions pool config hint).get j).predicted_marks
              == config.marks) →
        (∀ u, hint = some u →
          jsIncludes ((findMatchingQuestions pool config hint).get i).matched_unit u
            = jsIncludes ((findMatchingQuestions pool config hint).get j).matched_unit u) →
        ((findMatchingQuestions pool config hint).get j).topic_similarity
          ≤ ((findMatchingQuestions pool config hint).get i).topic_similarity)
    ∧ (serverCieMatch pool config sec).Pairwise
        (fun a b => serverCieScore config sec b ≤ serverCieScore config sec a)
    ∧ (∀ s : Rat,
        (serverCieMatch pool config sec).filter
            (fun q => serverCieScore config sec q == s)
          = (pool.filter (serverCieFilterPred config sec)).filter
              (fun q => serverCieScore config sec q == s)) := by
  have hsorted : (findMatchingQuestions pool config hint).Pairwise
      (fun a b => scoreQ config hint b ≤ scoreQ config hint a) :=
    pairwise_stableSortByDesc (scoreQ config hint) (pool.filter (clientFilterPred config))
  have hget := List.pairwise_iff_get.1 hsorted
  refine ⟨hsorted, ?_, hget, ?_, ?_, ?_⟩
  · intro s
    exact filter_stableSortByDesc (scoreQ config hint) s
      (pool.filter (clientFilterPred config))
  · intro i j hij hmb hub
    exact score_mono_helper config hint _ _ (hget i j hij) hmb hub
  · exact pairwise_stableSortByDesc (serverCieScore config sec)
      (pool.filter (serverCieFilterPred config sec))
  · intro s
    exact filter_stableSortByDesc (serverCieScore config sec) s
      (pool.filter (serverCieFilterPred config sec))

theorem scoreQ_qLowScore : scoreQ cfgMem (some "Unit 1") qLowScore = 50 := by
  show (1/2 : Rat) * 100
      + (if ((6 : Int) == (5 : Int)) = true then (50 : Rat) else 0)
      + (if jsIncludes "" "Unit 1" = true then (25 : Rat) else 0) = 50
  rw [if_neg (by decide), if_neg (by decide)]
  norm_num

theorem scoreQ_qHighScore : scoreQ cfgMem (some "Unit 1") qHighScore = 165 := by
  show (9/10 : Rat) * 100
      + (if ((5 : Int) == (5 : Int)) = true then (50 : Rat) else 0)
      + (if jsIncludes "Unit 1" "Unit 1" = true then (25 : Rat) else 0) = 165
  rw [if_pos (by decide), if_pos (by decide)]
  norm_num

/-- Witness for C4: on a concrete pool the ranked list is sorted by
descending score and places the higher-scoring later pool entry first. -/

theorem matcher_ranking_sorted_stable_witness :
    (findMatchingQuestions [qLowScore, qHighScore] cfgMem (some "Unit 1")).Pairwise
        (fun a b => scoreQ cfgMem (some "Unit 1") b ≤ scoreQ cfgMem (some "Unit 1") a)
    ∧ findMatchingQuestions [qLowScore, qHighScore] cfgMem (some "Unit 1")
        = [qHighScore, qLowScore] := by
  refine ⟨(matcher_ranking_sorted_stable [qLowScore, qHighScore] cfgMem
    (some "Unit 1") 1).1, ?_⟩
  have hfil : List.filter (clientFilterPred cfgMem) [qLowScore, qHighScore]
      = [qLowScore, qHighScore] := by
    rw [List.filter_cons_of_pos (by decide), List.filter_cons_of_pos (by decide),
      List.filter_nil]
  unfold findMatchingQuestions
  rw [hfil]
  rw [stableSortByDesc, stableSortByDesc, stableSortByDesc, insertScored, insertScored,
    if_neg (by rw [scoreQ_qLowScore, scoreQ_qHighScore]; norm_num), insertScored]

/-- **C5 counterexample.** There is no `deterministicFallback` mode in the
code: both template choices call `Math.random()` afresh.  Assembling twice
from the same slot list and the same (empty) pool with two different random
streams yields different assigned-question sequences. -/

theorem fallback_random_dependence :
    generateQuestionsFromProcessedData "CIE" [cfgOS] [] (fun _ => 0)
      ≠ generateQuestionsFromProcessedData "CIE" [cfgOS] [] (fun _ => 1) := by
  decide

theorem assembleSlots_streamIndep (pool : List ProcessedQuestion)
    (hint : Option String) (sec : Option Nat) (co : Option Int)
    (r1 r2 : Nat → Nat) :
    ∀ (cfgs : List QuestionConfig) (k1 k2 : Nat),
      List.Forall₂ StreamIndep (assembleSlots pool hint sec co r1 cfgs k1).1
        (assembleSlots pool hint sec co r2 cfgs k2).1 := by
  intro cfgs
  induction cfgs with
  | nil => intro k1 k2; exact List.Forall₂.nil
  | cons c rest ih =>
    intro k1 k2
    rw [assembleSlots, assembleSlots]
    cases hm : findMatchingQuestions pool c hint with
    | nil =>
      refine List.Forall₂.cons ⟨rfl, fun h => ?_⟩ (ih (k1 + 1) (k2 + 1))
      simp [generateAIQuestion] at h
    | cons sel tl =>
      exact List.Forall₂.cons ⟨rfl, fun _ => rfl⟩ (ih k1 k2)

theorem assembleGroups_streamIndep (pool : List ProcessedQuestion) (r1 r2 : Nat → Nat) :
    ∀ (gs : List SlotGroup) (k1 k2 : Nat),
      List.Forall₂ StreamIndep (assembleGroups pool r1 gs k1)
        (assembleGroups pool r2 gs k2) := by
  intro gs
  induction gs with
  | nil => intro k1 k2; exact List.Forall₂.nil
  | cons g rest ih =>
    intro k1 k2
    rw [assembleGroups, assembleGroups]
    exact List.rel_append
      (assembleSlots_streamIndep pool g.hint g.sec g.co r1 r2 g.cfgs k1 k2)
      (ih _ _)

/-- **C5 (amended).** With the code's randomized fallback only the
bank-sourced subset is stable: for any two random streams the two assembly
outputs have the same length, the same source tag at every position, and
identical entries at every bank-sourced position. -/

theorem bank_subset_stream_independent (examType : String)
    (cfgs : List QuestionConfig) (pool : List ProcessedQuestion) (r1 r2 : Nat → Nat) :
    (generateQuestionsFromProcessedData examType cfgs pool r1).length
      = (generateQuestionsFromProcessedData examType cfgs pool r2).length
    ∧ ∀ (i : Nat) (h1 : i < (generateQuestionsFromProcessedData examType cfgs pool r1).length)
        (h2 : i < (generateQuestionsFromProcessedData examType cfgs pool r2).length),
        ((generateQuestionsFromProcessedData examType cfgs pool r1).get ⟨i, h1⟩).source
          = ((generateQuestionsFromProcessedData examType cfgs pool r2).get ⟨i, h2⟩).source
        ∧ (((generateQuestionsFromProcessedData examType cfgs pool r1).get ⟨i, h1⟩).source
            = "processed_data" →
            (generateQuestionsFromProcessedData examType cfgs pool r1).get ⟨i, h1⟩
              = (generateQuestionsFromProcessedData examType cfgs pool r2).get ⟨i, h2⟩) := by
  have hall : List.Forall₂ StreamIndep
      (generateQuestionsFromProcessedData examType cfgs pool r1)
      (generateQuestionsFromProcessedData examType cfgs pool r2) := by
    unfold generateQuestionsFromProcessedData
    cases examType == "CIE" <;>
      exact assembleGroups_streamIndep pool r1 r2 _ 0 0
  have hget := List.forall₂_iff_get.1 hall
  exact ⟨hget.1, fun i h1 h2 => ⟨(hget.2 i h1 h2).1, (hget.2 i h1 h2).2⟩⟩

/-- Witness for C5 (amended) on the concrete inputs of the counterexample:
run lengths agree and the (ai-generated) first positions carry equal source
tags even across different streams. -/

theorem bank_subset_stream_independent_witness :
    (generateQuestionsFromProcessedData "CIE" [cfgOS] [] (fun _ => 0)).length
      = (generateQuestionsFromProcessedData "CIE" [cfgOS] [] (fun _ => 1)).length
    ∧ ((generateQuestionsFromProcessedData "CIE" [cfgOS] [] (fun _ => 0)).get
        ⟨0, by decide⟩).source
      = ((generateQuestionsFromProcessedData "CIE" [cfgOS] [] (fun _ => 1)).get
        ⟨0, by decide⟩).source := by
  have h := bank_subset_stream_independent "CIE" [cfgOS] [] (fun _ => 0) (fun _ => 1)
  exact ⟨h.1, (h.2 0 (by decide) (by decide)).1⟩

/-! ## C9: the layout renderer and the ambient clock -/

/-- With the configuration and question list fixed, the rendered paper
determines the date string: the prefix before `Date:` and the suffix after
it depend only on the other inputs, so equal outputs force equal dates. -/

theorem formatQP_date_inj (examConfig : ExamConfig)
    (questions : List GeneratedQuestion) {d1 d2 : String}
    (h : formatQuestionPaper examConfig questions d1
      = formatQuestionPaper examConfig questions d2) : d1 = d2 := by
  unfold formatQuestionPaper at h
  have h' := congrArg String.data h
  simp only [String.data_append, List.append_assoc] at h'
  have h2 := List.append_cancel_left (List.append_cancel_left h')
  exact String.ext (List.append_inj_left' h2 rfl)

/-- **C9 counterexample.** The `GenerateQuestions.tsx` renderer is not a
pure function of the exam configuration and the assigned questions: it
reads the ambient clock (`new Date().toLocaleDateString()`), so two calls
with identical configuration and question list but different clock readings
produce different strings. -/

theorem renderer_date_dependence :
    formatQuestionPaper ⟨"CIE", "3", "OS", "c1"⟩ [] "01/01/2024"
      ≠ formatQuestionPaper ⟨"CIE", "3", "OS", "c1"⟩ [] "02/01/2024" := by
  intro h
  exact absurd (formatQP_date_inj _ _ h) (by decide)

/-- **C9 (amended).** Holding the ambient date reading fixed, the renderer
is a pure function of its inputs: two renders with identical exam
configuration and question lists agree iff their date readings agree (the
date is the only ambient dependence; no network or storage is involved). -/

theorem renderer_output_date_iff (examConfig : ExamConfig)
    (questions : List GeneratedQuestion) (d1 d2 : String) :
    formatQuestionPaper examConfig questions d1
      = formatQuestionPaper examConfig questions d2 ↔ d1 = d2 :=
  ⟨formatQP_date_inj examConfig questions, fun h => by rw [h]⟩

/-- Witness for C9 (amended) at a concrete configuration and date. -/

theorem renderer_output_date_iff_witness :
    formatQuestionPaper ⟨"CIE", "3", "OS", "c1"⟩ [] "01/01/2024"
      = formatQuestionPaper ⟨"CIE", "3", "OS", "c1"⟩ [] "01/01/2024" :=
  (renderer_output_date_iff ⟨"CIE", "3", "OS", "c1"⟩ [] "01/01/2024" "01/01/2024").mpr rfl

/-! ## Support: the template-shape and `co` hypotheses are invariants

`initializeQuestionConfigs` establishes them and each slot-editing handler
(a map that rewrites one field of the slot with the given id, never
`questionId` or `co`) preserves them. -/

theorem initialize_cieShape : cieShape CieExamSetup.initializeQuestionConfigs := by
  unfold cieShape
  decide

theorem initialize_seeShape : seeShape SemesterExamSetup.initializeQuestionConfigs :=
  seeShape_of_seeShapeB (by decide)

theorem initialize_coConsistent :
    coConsistent SemesterExamSetup.initializeQuestionConfigs :=
  coConsistent_of_coConsistentB (by decide)

theorem cieShape_map (f : QuestionConfig → QuestionConfig)
    (hf : ∀ c, (f c).questionId = c.questionId)
    {cfgs : List QuestionConfig} (h : cieShape cfgs) : cieShape (cfgs.map f) := by
  intro q hq
  obtain ⟨c, hc, rfl⟩ := List.mem_map.1 hq
  rw [hf c]
  exact h c hc

theorem seeShape_map (f : QuestionConfig → QuestionConfig)
    (hf : ∀ c, (f c).questionId = c.questionId)
    {cfgs : List QuestionConfig} (h : seeShape cfgs) : seeShape (cfgs.map f) := by
  intro q hq
  obtain ⟨c, hc, rfl⟩ := List.mem_map.1 hq
  rw [hf c]
  exact h c hc

theorem coConsistent_map (f : QuestionConfig → QuestionConfig)
    (hf : ∀ c, (f c).questionId = c.questionId ∧ (f c).co = c.co)
    {cfgs : List QuestionConfig} (h : coConsistent cfgs) : coConsistent (cfgs.map f) := by
  intro q hq n hn
  obtain ⟨c, hc, rfl⟩ := List.mem_map.1 hq
  rw [(hf c).1] at hn
  rw [(hf c).2]
  exact h c hc n hn

theorem cie_handlers_preserve_shape (questionId level : String) (marks : Int)
    (includeC : Bool) (cfgs : List QuestionConfig) (h : cieShape cfgs) :
    cieShape (CieExamSetup.handleLevelChange questionId level cfgs)
    ∧ cieShape (CieExamSetup.handleMarksChange questionId marks cfgs)
    ∧ cieShape (CieExamSetup.handleIncludeCChange questionId includeC cfgs)
    ∧ cieShape (CieExamSetup.handleTopicChange questionId level cfgs) := by
  refine ⟨?_, ?_, ?_, ?_⟩
  · exact cieShape_map _ (fun c => by cases hc : c.questionId == questionId <;> simp [hc]) h
  · exact cieShape_map _ (fun c => by cases hc : c.questionId == questionId <;> simp [hc]) h
  · unfold CieExamSetup.handleIncludeCChange
    by_cases hg : jsEndsWith questionId "c" = true
    · rw [if_pos hg]
      exact cieShape_map _ (fun c => by cases hc : c.questionId == questionId <;> simp [hc]) h
    · rw [if_neg hg]
      exact h
  · exact cieShape_map _ (fun c => by cases hc : c.questionId == questionId <;> simp [hc]) h

theorem see_handlers_preserve_invariants (questionId level : String) (marks : Int)
    (includeC : Bool) (cfgs : List QuestionConfig)
    (hs : seeShape cfgs) (hco : coConsistent cfgs) :
    (seeShape (SemesterExamSetup.handleLevelChange questionId level cfgs)
      ∧ coConsistent (SemesterExamSetup.handleLevelChange questionId level cfgs))
    ∧ (seeShape (SemesterExamSetup.handleMarksChange questionId marks cfgs)
      ∧ coConsistent (SemesterExamSetup.handleMarksChange questionId marks cfgs))
    ∧ (seeShape (SemesterExamSetup.handleIncludeCChange questionId includeC cfgs)
      ∧ coConsistent (SemesterExamSetup.handleIncludeCChange questionId includeC cfgs))
    ∧ (seeShape (SemesterExamSetup.handleTopicChange questionId level cfgs)
      ∧ coConsistent (SemesterExamSetup.handleTopicChange questionId level cfgs)) := by
  refine ⟨⟨?_, ?_⟩, ⟨?_, ?_⟩, ⟨?_, ?_⟩, ⟨?_, ?_⟩⟩
  · exact seeShape_map _ (fun c => by cases hc : c.questionId == questionId <;> simp [hc]) hs
  · exact coConsistent_map _
      (fun c => by cases hc : c.questionId == questionId <;> simp [hc]) hco
  · exact seeShape_map _ (fun c => by cases hc : c.questionId == questionId <;> simp [hc]) hs
  · exact coConsistent_map _
      (fun c => by cases hc : c.questionId == questionId <;> simp [hc]) hco
  · unfold SemesterExamSetup.handleIncludeCChange
    by_cases hg : jsEndsWith questionId "c" = true
    · rw [if_pos hg]
      exact seeShape_map _ (fun c => by cases hc : c.questionId == questionId <;> simp [hc]) hs
    · rw [if_neg hg]; exact hs
  · unfold SemesterExamSetup.handleIncludeCChange
    by_cases hg : jsEndsWith questionId "c" = true
    · rw [if_pos hg]
      exact coConsistent_map _
        (fun c => by cases hc : c.questionId == questionId <;> simp [hc]) hco
    · rw [if_neg hg]; exact hco
  · exact seeShape_map _ (fun c => by cases hc : c.questionId == questionId <;> simp [hc]) hs
  · exact coConsistent_map _
      (fun c => by cases hc : c.questionId == questionId <;> simp [hc]) hco
